import Mathlib

/-!
Verification development for the ingestion/embedding ETL pipeline of the
LocalBizIntelAI backend (`apps/backend/jobs` and `apps/backend/repositories`).

The Python code is shallowly embedded: SQLAlchemy tables become lists of
records, the ORM session becomes explicit state passing, every write issued by
a job is additionally recorded in an explicit operation trace, and exceptions
become `Except` values.  External collaborators (source clients, the HTTP
layer, the embedding provider, failures of the final `flush`) are supplied as
oracle arguments, exactly at the seams the source code exposes as `Protocol`s.
Numeric JSON/database values on which the pipeline never computes (counts,
incomes, coordinates, vector entries) are represented by `Int`; timestamps,
which the code only formats and stores, are represented by the `String` the
code stores (`now.isoformat()`).
-/

namespace LocalBizIntel

/-- Python exceptions observed by the pipeline, by type and message. -/
inductive PyExc where
  | runtimeError (msg : String)
  | valueError (msg : String)
  | persistenceError (msg : String)
deriving DecidableEq, Repr

/-- Job options dictionary (`options: dict[str, Any]`); the pipeline only
passes it through, so an association list of string pairs suffices. -/
abbrev OptionsMap : Type := List (String × String)

/-! ### Generic keyed upsert loop

Every repository `upsert_many` in the source has the same shape: for each
input row, select the first stored row with the same natural key; if found,
overwrite its non-key fields in place, else append a freshly built row; count
every input row.  `updateFirst` models the SQLAlchemy select-first-and-mutate,
`upsertStep` one loop iteration, `upsertMany` the whole loop with its
`affected_rows` counter. -/

/-- Replace the first element satisfying the predicate; none when no element does. -/
def updateFirst (p : α → Bool) (f : α → α) : List α → Option (List α)
  | [] => none
  | x :: xs =>
    if p x then some (f x :: xs) else (updateFirst p f xs).map (fun t => x :: t)

/-- One iteration of a repository upsert loop: update the first row whose
natural key (`keyA`) matches the input row's key (`keyB`), else insert. -/
def upsertStep [DecidableEq κ] (keyA : α → κ) (keyB : β → κ)
    (upd : β → α → α) (ins : β → α) (s : List α) (b : β) : List α :=
  match updateFirst (fun a => decide (keyA a = keyB b)) (upd b) s with
  | some s2 => s2
  | none => s ++ [ins b]

/-- The whole upsert loop over the input rows, threading the table state. -/
def upsertList [DecidableEq κ] (keyA : α → κ) (keyB : β → κ)
    (upd : β → α → α) (ins : β → α) (s : List α) (rows : List β) : List α :=
  rows.foldl (upsertStep keyA keyB upd ins) s

/-- The upsert loop together with the `affected_rows` counter incremented once
per input row, mirroring `affected_rows += 1` in every repository. -/
def upsertMany [DecidableEq κ] (keyA : α → κ) (keyB : β → κ)
    (upd : β → α → α) (ins : β → α)
    (acc : List α × Nat) (rows : List β) : List α × Nat :=
  rows.foldl (fun acc b => (upsertStep keyA keyB upd ins acc.1 b, acc.2 + 1)) acc

/-- Number of stored rows carrying a given natural key. -/
def countKey [DecidableEq κ] (keyA : α → κ) (k : κ) (s : List α) : Nat :=
  s.countP (fun a => decide (keyA a = k))

/-! ### Data model (`models/market.py`, `models/system.py`, `models/ai.py`)

One record type per table touched by the pipeline.  Nullable columns are
`Option`s.  For repository *input* rows (Python dicts), a field the update
branch may or may not receive is wrapped in one more `Option` layer: the outer
layer is dict-key presence, the inner one JSON null. -/

/-- Row of the `demographics` table. -/
structure DemographicsRow where
  tenant_id : Option String
  geo_id : String
  city : String
  country : String
  population_total : Int
  median_income : Int
  age_distribution : Option String
  education_levels : Option String
  household_size_avg : Option Int
  /-- Models the source's `immigration_ratio` column (renamed for the
  development's identifier conventions). -/
  immigration_pct : Option Int
  coordinates : Option String
  last_updated : String
deriving DecidableEq, Repr

/-- Input dict for `DemographicsRepository.upsert_many`.  `tenant_id` conflates
dict-absence and null because the code reads it only with `.get` (update
skips it, insert defaults it to null). -/
structure DemographicsInput where
  tenant_id : Option String
  geo_id : String
  city : String
  country : String
  population_total : Option Int
  median_income : Option Int
  age_distribution : Option (Option String)
  education_levels : Option (Option String)
  household_size_avg : Option (Option Int)
  immigration_pct : Option (Option Int)
  coordinates : Option (Option String)
deriving DecidableEq, Repr

/-- Row of the `spending` table. -/
structure SpendingRow where
  tenant_id : Option String
  geo_id : String
  country : String
  city : String
  category : String
  avg_monthly_spend : Option Int
  spend_idx : Option Int
  last_updated : String
deriving DecidableEq, Repr

/-- Input dict for `SpendingRepository.upsert_many` (`spend_idx` models the
source's `spend_index` column). -/
structure SpendingInput where
  tenant_id : Option String
  geo_id : String
  country : String
  city : String
  category : String
  avg_monthly_spend : Option (Option Int)
  spend_idx : Option (Option Int)
deriving DecidableEq, Repr

/-- Row of the `labour_stats` table (`labour_participation` models the
source's `labour_force_participation` column). -/
structure LabourStatsRow where
  tenant_id : Option String
  geo_id : String
  city : String
  country : String
  unemployment_rate : Option Int
  job_openings : Option Int
  median_salary : Option Int
  labour_participation : Option Int
  last_updated : String
deriving DecidableEq, Repr

/-- Input dict for `LabourStatsRepository.upsert_many`. -/
structure LabourStatsInput where
  tenant_id : Option String
  geo_id : String
  city : String
  country : String
  unemployment_rate : Option (Option Int)
  job_openings : Option (Option Int)
  median_salary : Option (Option Int)
  labour_participation : Option (Option Int)
deriving DecidableEq, Repr

/-- One coordinate sample extracted from an Overpass element
(`{"id": ..., "lat": ..., "lon": ..., "type": ...}`). -/
structure CoordSample where
  id : Option Int
  lat : Int
  lon : Int
  osm_type : Option String
deriving DecidableEq, Repr

/-- Row of the `business_density` table. -/
structure BusinessDensityRow where
  tenant_id : Option String
  geo_id : String
  city : String
  country : String
  business_type : String
  count : Option Int
  density_score : Option Int
  coordinates : Option (List CoordSample)
  last_updated : String
deriving DecidableEq, Repr

/-- Input dict for `BusinessDensityRepository.upsert_many`; its shape is the
row dict built by `OverpassBusinessDensitySourceClient.fetch_business_density`,
whose keys are always exactly these. -/
structure BusinessDensityInput where
  geo_id : String
  country : String
  city : String
  business_type : String
  count : Int
  density_score : Option Int
  coordinates : Option (List CoordSample)
deriving DecidableEq, Repr

/-- Row of the `data_freshness` table: one record per dataset name. -/
structure FreshnessRecord where
  dataset_name : String
  last_run : String
  row_count : Nat
  status : String
deriving DecidableEq, Repr

/-- Payload stored in an `ETLLog` row: the four dataset jobs store
`{country, city, options}`, the rebuild job adds `regions`. -/
inductive LogPayload where
  | etl (country : Option String) (city : Option String) (options : OptionsMap)
  | rebuild (country : Option String) (city : Option String)
      (regions : Option (List String)) (options : OptionsMap)
deriving DecidableEq, Repr

/-- Row of the append-only `etl_logs` audit table. -/
structure EtlLogRow where
  job_name : String
  payload : LogPayload
  status : String
  created_at : String
deriving DecidableEq, Repr

/-- Metadata blob stored alongside a vector
(`{"geo_id", "city", "country", "options"}`). -/
structure VectorMeta where
  geo_id : String
  city : String
  country : Option String
  options : OptionsMap
deriving DecidableEq, Repr

/-- Row of the `vector_insights` table, keyed by `(tenant_id, geo_id)`. -/
structure VectorInsightRow where
  tenant_id : Option String
  geo_id : String
  embedding : List Int
  metadata_json : Option VectorMeta
  created_at : String
deriving DecidableEq, Repr

/-- Input dict for `VectorInsightsRepository.upsert_many`. -/
structure VectorInsightInput where
  tenant_id : Option String
  geo_id : String
  embedding : List Int
  metadata : Option VectorMeta
deriving DecidableEq, Repr

/-- The whole database state the pipeline touches. -/
structure Storage where
  demographics : List DemographicsRow
  spending : List SpendingRow
  labour_stats : List LabourStatsRow
  business_density : List BusinessDensityRow
  data_freshness : List FreshnessRecord
  etl_logs : List EtlLogRow
  vector_insights : List VectorInsightRow
deriving DecidableEq, Repr

/-- The empty database. -/
def Storage.empty : Storage := ⟨[], [], [], [], [], [], []⟩

/-- Writes and external calls a job issues, in order.  The claims count these
operations, so each repository call and each `db_session.add(ETLLog(...))`
appends one entry. -/
inductive StorageOp where
  | datasetUpsert (dataset : String) (row_count : Nat)
  | freshnessUpsert (dataset_name : String) (last_run : String)
      (row_count : Nat) (status : String)
  | etlLogAdd (row : EtlLogRow)
  | repoRead (dataset : String)
  | embedCall (document_count : Nat)
  | vectorUpsert (rows : List VectorInsightInput)
deriving DecidableEq, Repr

/-- Python `str.lower()` (the identifiers involved are ASCII). -/
def pyLower (s : String) : String :=
  String.mk (s.data.map Char.toLower)

/-- Python `str.replace(old, new)` for a single-character pattern, the only
form the pipeline uses (`"-"→"_"`, `" "→"-"`). -/
def pyCharReplace (old new : Char) (s : String) : String :=
  String.mk (s.data.map (fun c => if c = old then new else c))

/-- Python `str.strip()`: drop leading and trailing whitespace. -/
def pyStrip (s : String) : String :=
  String.mk (((s.data.dropWhile Char.isWhitespace).reverse.dropWhile
    Char.isWhitespace).reverse)

/-- Tests whether an operation is a freshness-table upsert. -/
def StorageOp.isFreshnessUpsert : StorageOp → Bool
  | .freshnessUpsert _ _ _ _ => true
  | _ => false

/-- Tests whether an operation is an audit-log append. -/
def StorageOp.isEtlLogAdd : StorageOp → Bool
  | .etlLogAdd _ => true
  | _ => false

/-- Tests whether an operation is a vector-store upsert. -/
def StorageOp.isVectorUpsert : StorageOp → Bool
  | .vectorUpsert _ => true
  | _ => false

/-- Number of freshness-table upserts a run issued. -/
def freshnessWriteCount (tr : List StorageOp) : Nat :=
  tr.countP StorageOp.isFreshnessUpsert

/-- Number of audit-log appends a run issued. -/
def auditAppendCount (tr : List StorageOp) : Nat :=
  tr.countP StorageOp.isEtlLogAdd

/-! ### Repositories

Each `upsert_many` is the generic loop instantiated with the table's natural
key, its update assignment (which skips the key fields and `tenant_id` and
stamps `last_updated`) and its insert constructor, exactly as written in the
corresponding `repositories/*.py` file. -/

/-- Natural key of a demographics row: `(geo_id, city, country)`. -/
def DemographicsRow.natKey (r : DemographicsRow) : String × String × String :=
  (r.geo_id, r.city, r.country)

/-- Natural key carried by a demographics input dict. -/
def DemographicsInput.natKey (b : DemographicsInput) : String × String × String :=
  (b.geo_id, b.city, b.country)

/-- Update branch of `DemographicsRepository.upsert_many`: overwrite every
field present in the input dict except `geo_id`, `city`, `country` and
`tenant_id`, then stamp `last_updated`. -/
def DemographicsRepository.applyUpdate (last_updated : String)
    (b : DemographicsInput) (a : DemographicsRow) : DemographicsRow :=
  { a with
    population_total := b.population_total.getD a.population_total
    median_income := b.median_income.getD a.median_income
    age_distribution := b.age_distribution.getD a.age_distribution
    education_levels := b.education_levels.getD a.education_levels
    household_size_avg := b.household_size_avg.getD a.household_size_avg
    immigration_pct := b.immigration_pct.getD a.immigration_pct
    coordinates := b.coordinates.getD a.coordinates
    last_updated := last_updated }

/-- Insert branch of `DemographicsRepository.upsert_many`: build a new row
from `input_row.get(...)` with the source's defaults. -/
def DemographicsRepository.buildInsert (last_updated : String)
    (b : DemographicsInput) : DemographicsRow :=
  { tenant_id := b.tenant_id
    geo_id := b.geo_id
    city := b.city
    country := b.country
    population_total := b.population_total.getD 0
    median_income := b.median_income.getD 0
    age_distribution := b.age_distribution.getD none
    education_levels := b.education_levels.getD none
    household_size_avg := b.household_size_avg.getD none
    immigration_pct := b.immigration_pct.getD none
    coordinates := b.coordinates.getD none
    last_updated := last_updated }

/-- Model of `DemographicsRepository.upsert_many`: returns the new table state
and the affected-row count. -/
def DemographicsRepository.upsert_many (storage : List DemographicsRow)
    (rows : List DemographicsInput) (last_updated : String) :
    List DemographicsRow × Nat :=
  upsertMany DemographicsRow.natKey DemographicsInput.natKey
    (DemographicsRepository.applyUpdate last_updated)
    (DemographicsRepository.buildInsert last_updated) (storage, 0) rows

/-- Natural key of a spending row: `(geo_id, city, country, category)`. -/
def SpendingRow.natKey (r : SpendingRow) : String × String × String × String :=
  (r.geo_id, r.city, r.country, r.category)

/-- Natural key carried by a spending input dict. -/
def SpendingInput.natKey (b : SpendingInput) : String × String × String × String :=
  (b.geo_id, b.city, b.country, b.category)

/-- Update branch of `SpendingRepository.upsert_many`. -/
def SpendingRepository.applyUpdate (last_updated : String)
    (b : SpendingInput) (a : SpendingRow) : SpendingRow :=
  { a with
    avg_monthly_spend := b.avg_monthly_spend.getD a.avg_monthly_spend
    spend_idx := b.spend_idx.getD a.spend_idx
    last_updated := last_updated }

/-- Insert branch of `SpendingRepository.upsert_many`. -/
def SpendingRepository.buildInsert (last_updated : String)
    (b : SpendingInput) : SpendingRow :=
  { tenant_id := b.tenant_id
    geo_id := b.geo_id
    country := b.country
    city := b.city
    category := b.category
    avg_monthly_spend := b.avg_monthly_spend.getD none
    spend_idx := b.spend_idx.getD none
    last_updated := last_updated }

/-- Model of `SpendingRepository.upsert_many`. -/
def SpendingRepository.upsert_many (storage : List SpendingRow)
    (rows : List SpendingInput) (last_updated : String) :
    List SpendingRow × Nat :=
  upsertMany SpendingRow.natKey SpendingInput.natKey
    (SpendingRepository.applyUpdate last_updated)
    (SpendingRepository.buildInsert last_updated) (storage, 0) rows

/-- Natural key of a labour-stats row: `(geo_id, city, country)`. -/
def LabourStatsRow.natKey (r : LabourStatsRow) : String × String × String :=
  (r.geo_id, r.city, r.country)

/-- Natural key carried by a labour-stats input dict. -/
def LabourStatsInput.natKey (b : LabourStatsInput) : String × String × String :=
  (b.geo_id, b.city, b.country)

/-- Update branch of `LabourStatsRepository.upsert_many`. -/
def LabourStatsRepository.applyUpdate (last_updated : String)
    (b : LabourStatsInput) (a : LabourStatsRow) : LabourStatsRow :=
  { a with
    unemployment_rate := b.unemployment_rate.getD a.unemployment_rate
    job_openings := b.job_openings.getD a.job_openings
    median_salary := b.median_salary.getD a.median_salary
    labour_participation := b.labour_participation.getD a.labour_participation
    last_updated := last_updated }

/-- Insert branch of `LabourStatsRepository.upsert_many`. -/
def LabourStatsRepository.buildInsert (last_updated : String)
    (b : LabourStatsInput) : LabourStatsRow :=
  { tenant_id := b.tenant_id
    geo_id := b.geo_id
    city := b.city
    country := b.country
    unemployment_rate := b.unemployment_rate.getD none
    job_openings := b.job_openings.getD none
    median_salary := b.median_salary.getD none
    labour_participation := b.labour_participation.getD none
    last_updated := last_updated }

/-- Model of `LabourStatsRepository.upsert_many`. -/
def LabourStatsRepository.upsert_many (storage : List LabourStatsRow)
    (rows : List LabourStatsInput) (last_updated : String) :
    List LabourStatsRow × Nat :=
  upsertMany LabourStatsRow.natKey LabourStatsInput.natKey
    (LabourStatsRepository.applyUpdate last_updated)
    (LabourStatsRepository.buildInsert last_updated) (storage, 0) rows

/-- Natural key of a business-density row:
`(geo_id, city, country, business_type)`. -/
def BusinessDensityRow.natKey (r : BusinessDensityRow) :
    String × String × String × String :=
  (r.geo_id, r.city, r.country, r.business_type)

/-- Natural key carried by a business-density input dict. -/
def BusinessDensityInput.natKey (b : BusinessDensityInput) :
    String × String × String × String :=
  (b.geo_id, b.city, b.country, b.business_type)

/-- Update branch of `BusinessDensityRepository.upsert_many`; the input dicts
from the source client always carry `count`, `density_score`, `coordinates`. -/
def BusinessDensityRepository.applyUpdate (last_updated : String)
    (b : BusinessDensityInput) (a : BusinessDensityRow) : BusinessDensityRow :=
  { a with
    count := some b.count
    density_score := b.density_score
    coordinates := b.coordinates
    last_updated := last_updated }

/-- Insert branch of `BusinessDensityRepository.upsert_many`. -/
def BusinessDensityRepository.buildInsert (last_updated : String)
    (b : BusinessDensityInput) : BusinessDensityRow :=
  { tenant_id := none
    geo_id := b.geo_id
    city := b.city
    country := b.country
    business_type := b.business_type
    count := some b.count
    density_score := b.density_score
    coordinates := b.coordinates
    last_updated := last_updated }

/-- Model of `BusinessDensityRepository.upsert_many`. -/
def BusinessDensityRepository.upsert_many (storage : List BusinessDensityRow)
    (rows : List BusinessDensityInput) (last_updated : String) :
    List BusinessDensityRow × Nat :=
  upsertMany BusinessDensityRow.natKey BusinessDensityInput.natKey
    (BusinessDensityRepository.applyUpdate last_updated)
    (BusinessDensityRepository.buildInsert last_updated) (storage, 0) rows

/-- Natural key of a vector-insight row: `(tenant_id, geo_id)`; equality on
`Option String` covers both the `is_(None)` and the `==` filter branch. -/
def VectorInsightRow.natKey (r : VectorInsightRow) : Option String × String :=
  (r.tenant_id, r.geo_id)

/-- Natural key carried by a vector-insight input dict. -/
def VectorInsightInput.natKey (b : VectorInsightInput) : Option String × String :=
  (b.tenant_id, b.geo_id)

/-- Update branch of `VectorInsightsRepository.upsert_many`. -/
def VectorInsightsRepository.applyUpdate (created_at : String)
    (b : VectorInsightInput) (a : VectorInsightRow) : VectorInsightRow :=
  { a with
    embedding := b.embedding
    metadata_json := b.metadata
    created_at := created_at }

/-- Insert branch of `VectorInsightsRepository.upsert_many`. -/
def VectorInsightsRepository.buildInsert (created_at : String)
    (b : VectorInsightInput) : VectorInsightRow :=
  { tenant_id := b.tenant_id
    geo_id := b.geo_id
    embedding := b.embedding
    metadata_json := b.metadata
    created_at := created_at }

/-- Model of `VectorInsightsRepository.upsert_many`. -/
def VectorInsightsRepository.upsert_many (storage : List VectorInsightRow)
    (rows : List VectorInsightInput) (created_at : String) :
    List VectorInsightRow × Nat :=
  upsertMany VectorInsightRow.natKey VectorInsightInput.natKey
    (VectorInsightsRepository.applyUpdate created_at)
    (VectorInsightsRepository.buildInsert created_at) (storage, 0) rows

/-- Model of `DataFreshnessRepository.upsert_status`: select the first record
with this dataset name and overwrite it, else append a new record. -/
def DataFreshnessRepository.upsert_status (s : List FreshnessRecord)
    (dataset_name : String) (last_run : String) (row_count : Nat)
    (status : String) : List FreshnessRecord :=
  match updateFirst (fun r => decide (r.dataset_name = dataset_name))
      (fun r => { r with last_run := last_run, row_count := row_count, status := status }) s with
  | some s2 => s2
  | none => s ++ [⟨dataset_name, last_run, row_count, status⟩]

/-- Model of `DemographicsRepository.get_for_regions` (alias of
`list_by_city`): rows of the city, the country filter applied only when the
country string is truthy, ordered by `geo_id`. -/
def DemographicsRepository.get_for_regions (s : List DemographicsRow)
    (city : String) (country : Option String) : List DemographicsRow :=
  let base := s.filter (fun r => decide (r.city = city))
  let filtered := match country with
    | some co => if co = "" then base else base.filter (fun r => decide (r.country = co))
    | none => base
  List.insertionSort (fun a b => a.geo_id ≤ b.geo_id) filtered

/-- Model of `SpendingRepository.get_for_regions`: ordered by `category`. -/
def SpendingRepository.get_for_regions (s : List SpendingRow)
    (city : String) (country : Option String) : List SpendingRow :=
  let base := s.filter (fun r => decide (r.city = city))
  let filtered := match country with
    | some co => if co = "" then base else base.filter (fun r => decide (r.country = co))
    | none => base
  List.insertionSort (fun a b => a.category ≤ b.category) filtered

/-- Model of `LabourStatsRepository.get_for_regions`: ordered by `geo_id`. -/
def LabourStatsRepository.get_for_regions (s : List LabourStatsRow)
    (city : String) (country : Option String) : List LabourStatsRow :=
  let base := s.filter (fun r => decide (r.city = city))
  let filtered := match country with
    | some co => if co = "" then base else base.filter (fun r => decide (r.country = co))
    | none => base
  List.insertionSort (fun a b => a.geo_id ≤ b.geo_id) filtered

/-- Model of `BusinessDensityRepository.list_by_city_and_type`: optional
truthy filters on country and business type, ordered by `business_type`. -/
def BusinessDensityRepository.list_by_city_and_type (s : List BusinessDensityRow)
    (city : String) (country : Option String) (business_type : Option String) :
    List BusinessDensityRow :=
  let base := s.filter (fun r => decide (r.city = city))
  let step1 := match country with
    | some co => if co = "" then base else base.filter (fun r => decide (r.country = co))
    | none => base
  let step2 := match business_type with
    | some bt => if bt = "" then step1 else step1.filter (fun r => decide (r.business_type = bt))
    | none => step1
  List.insertionSort (fun a b => a.business_type ≤ b.business_type) step2

/-! ### Overpass source client (`jobs/business_density_etl_job.py`)

`fetch_business_density` is embedded with two oracles: the resolved business
type table (the output of `_resolve_business_types`, i.e. `options.business_types`
when valid, else the settings default) and the HTTP response each per-type
Overpass query receives.  The query string built by `_build_overpass_query`
does not influence any claim and is left inside the oracle. -/

/-- Settings fields the business-density source client reads. -/
structure OsmSettings where
  osm_default_country : String
  osm_city_geo_id_suffix : String
  osm_max_coordinate_samples : Nat
deriving DecidableEq, Repr

/-- One `(tag_key, tag_value)` pair of the business-type table. -/
structure TagSpec where
  tag_key : String
  tag_value : String
deriving DecidableEq, Repr

/-- Center object of an Overpass way/relation element. -/
structure OsmCenter where
  lat : Option Int
  lon : Option Int
deriving DecidableEq, Repr

/-- Elements of an Overpass JSON response; `center` is present only when the
payload carries a dict there. -/
structure OsmElement where
  id : Option Int
  osm_type : Option String
  lat : Option Int
  lon : Option Int
  center : Option OsmCenter
deriving DecidableEq, Repr

/-- HTTP response of one Overpass query: `ok = false` makes
`raise_for_status` raise, `elements` is `payload.get("elements", [])`. -/
structure OverpassResponse where
  ok : Bool
  elements : List OsmElement
deriving DecidableEq, Repr

/-- Lat/lon resolution step of `_extract_coordinates`: take the element's own
`lat`/`lon`; if either is missing, take both from `center`; skip the element
when either is still missing. -/
def OverpassBusinessDensitySourceClient.resolve_point (element : OsmElement) :
    Option (Int × Int) :=
  let lat := element.lat
  let lon := element.lon
  let pair : Option Int × Option Int :=
    if lat = none ∨ lon = none then
      match element.center with
      | some center => (center.lat, center.lon)
      | none => (lat, lon)
    else (lat, lon)
  match pair with
  | (some la, some lo) => some (la, lo)
  | _ => none

/-- Loop body of `_extract_coordinates`: walk the elements in response order,
append a `{id, lat, lon, type}` sample for each element with a resolvable
point, and break as soon as the accumulator reaches
`osm_max_coordinate_samples`. -/
def OverpassBusinessDensitySourceClient.extract_coordinates_loop
    (max_samples : Nat) :
    List OsmElement → List CoordSample → List CoordSample
  | [], acc => acc
  | element :: rest, acc =>
    match OverpassBusinessDensitySourceClient.resolve_point element with
    | none =>
      OverpassBusinessDensitySourceClient.extract_coordinates_loop max_samples rest acc
    | some p =>
      let acc2 := acc ++ [⟨element.id, p.1, p.2, element.osm_type⟩]
      if max_samples ≤ acc2.length then acc2
      else OverpassBusinessDensitySourceClient.extract_coordinates_loop max_samples rest acc2

/-- Model of `OverpassBusinessDensitySourceClient._extract_coordinates`. -/
def OverpassBusinessDensitySourceClient.extract_coordinates
    (elements : List OsmElement) (max_samples : Nat) : List CoordSample :=
  OverpassBusinessDensitySourceClient.extract_coordinates_loop max_samples elements []

/-- The coordinate sample an element contributes, when its point resolves:
the `{id, lat, lon, type}` dict appended by `_extract_coordinates`. -/
def OverpassBusinessDensitySourceClient.sample_of (element : OsmElement) :
    Option CoordSample :=
  (OverpassBusinessDensitySourceClient.resolve_point element).map
    (fun p => ⟨element.id, p.1, p.2, element.osm_type⟩)

/-- Model of `_build_city_geo_id`:
`city.lower().strip().replace(" ", "-")` plus the configured suffix. -/
def OverpassBusinessDensitySourceClient.build_city_geo_id (city : String)
    (st : OsmSettings) : String :=
  pyCharReplace ' ' '-' (pyStrip (pyLower city)) ++ "-" ++ st.osm_city_geo_id_suffix

/-- Per-business-type loop of `fetch_business_density`: one query per
configured type, `raise_for_status` aborting the whole fetch on a non-2xx
response, one row per type with `count = len(elements)` and the capped
coordinate samples (an empty sample list is stored as null). -/
def OverpassBusinessDensitySourceClient.fetch_loop
    (responses : String → OverpassResponse) (st : OsmSettings)
    (city_geo_id resolved_country city : String) :
    List (String × TagSpec) → List BusinessDensityInput →
      Except PyExc (List BusinessDensityInput)
  | [], rows => .ok rows
  | (business_type, _spec) :: rest, rows =>
    let response := responses business_type
    if response.ok = false then .error (.runtimeError "HTTPStatusError")
    else
      let elements := response.elements
      let coordinates := OverpassBusinessDensitySourceClient.extract_coordinates
        elements st.osm_max_coordinate_samples
      let row : BusinessDensityInput :=
        ⟨city_geo_id, resolved_country, city, business_type,
          Int.ofNat elements.length, none,
          if coordinates = [] then none else some coordinates⟩
      OverpassBusinessDensitySourceClient.fetch_loop responses st city_geo_id
        resolved_country city rest (rows ++ [row])

/-- Model of `OverpassBusinessDensitySourceClient.fetch_business_density`. -/
def OverpassBusinessDensitySourceClient.fetch_business_density
    (responses : String → OverpassResponse)
    (business_type_specs : List (String × TagSpec))
    (country city : Option String) (st : OsmSettings) :
    Except PyExc (List BusinessDensityInput) :=
  match city with
  | none => .error (.valueError "city is required for OSM business density ingestion")
  | some c =>
    if c = "" then
      .error (.valueError "city is required for OSM business density ingestion")
    else
      let resolved_country := match country with
        | some co => if co = "" then st.osm_default_country else co
        | none => st.osm_default_country
      let city_geo_id := OverpassBusinessDensitySourceClient.build_city_geo_id c st
      OverpassBusinessDensitySourceClient.fetch_loop responses st city_geo_id
        resolved_country c business_type_specs []

/-! ### The four dataset ETL jobs (`jobs/*_etl_job.py`)

Each `run` is embedded with two oracles: `fetch_result`, the outcome of the
Source Client call, and `flush_exc`, an optional persistence failure injected
at the success path's final `db_session.flush()` — the one failure point that
sits *after* the COMPLETED freshness/audit writes.  Intermediate repository
writes are modeled as non-raising.  Any raised exception runs the job's
`except` block: a FAILED freshness upsert, a FAILED audit append, re-raise. -/

/-- Result dataclass `DemographicsEtlResult`. -/
structure DemographicsEtlResult where
  dataset_name : String
  status : String
  row_count : Nat
  country : Option String
  city : Option String
deriving DecidableEq, Repr

/-- Result dataclass `SpendingEtlResult`. -/
structure SpendingEtlResult where
  dataset_name : String
  status : String
  row_count : Nat
  country : Option String
  city : Option String
deriving DecidableEq, Repr

/-- Result dataclass `LabourStatsEtlResult`. -/
structure LabourStatsEtlResult where
  dataset_name : String
  status : String
  row_count : Nat
  country : Option String
  city : Option String
deriving DecidableEq, Repr

/-- Result dataclass `BusinessDensityEtlResult`. -/
structure BusinessDensityEtlResult where
  dataset_name : String
  status : String
  row_count : Nat
  country : Option String
  city : Option String
deriving DecidableEq, Repr

/-- Model of `DemographicsEtlJob.run`. -/
def DemographicsEtlJob.run (fetch_result : Except PyExc (List DemographicsInput))
    (flush_exc : Option PyExc) (s : Storage) (country city : Option String)
    (options : OptionsMap) (now : String) :
    Storage × List StorageOp × Except PyExc DemographicsEtlResult :=
  let dataset_name := "demographics"
  match fetch_result with
  | .error e =>
    let fresh := DataFreshnessRepository.upsert_status s.data_freshness dataset_name now 0 "FAILED"
    let logF : EtlLogRow := ⟨dataset_name, .etl country city options, "FAILED", now⟩
    ({ s with data_freshness := fresh, etl_logs := s.etl_logs ++ [logF] },
      [.freshnessUpsert dataset_name now 0 "FAILED", .etlLogAdd logF], .error e)
  | .ok raw_rows =>
    let up := DemographicsRepository.upsert_many s.demographics raw_rows now
    let affected_rows := up.2
    let fresh := DataFreshnessRepository.upsert_status s.data_freshness dataset_name now affected_rows "COMPLETED"
    let logC : EtlLogRow := ⟨dataset_name, .etl country city options, "COMPLETED", now⟩
    let s2 : Storage :=
      { s with demographics := up.1, data_freshness := fresh, etl_logs := s.etl_logs ++ [logC] }
    let tr := [StorageOp.datasetUpsert dataset_name affected_rows,
      .freshnessUpsert dataset_name now affected_rows "COMPLETED", .etlLogAdd logC]
    match flush_exc with
    | some e =>
      let fresh2 := DataFreshnessRepository.upsert_status s2.data_freshness dataset_name now 0 "FAILED"
      let logF : EtlLogRow := ⟨dataset_name, .etl country city options, "FAILED", now⟩
      ({ s2 with data_freshness := fresh2, etl_logs := s2.etl_logs ++ [logF] },
        tr ++ [.freshnessUpsert dataset_name now 0 "FAILED", .etlLogAdd logF], .error e)
    | none =>
      (s2, tr, .ok ⟨dataset_name, "COMPLETED", affected_rows, country, city⟩)

/-- Model of `SpendingEtlJob.run`. -/
def SpendingEtlJob.run (fetch_result : Except PyExc (List SpendingInput))
    (flush_exc : Option PyExc) (s : Storage) (country city : Option String)
    (options : OptionsMap) (now : String) :
    Storage × List StorageOp × Except PyExc SpendingEtlResult :=
  let dataset_name := "spending"
  match fetch_result with
  | .error e =>
    let fresh := DataFreshnessRepository.upsert_status s.data_freshness dataset_name now 0 "FAILED"
    let logF : EtlLogRow := ⟨dataset_name, .etl country city options, "FAILED", now⟩
    ({ s with data_freshness := fresh, etl_logs := s.etl_logs ++ [logF] },
      [.freshnessUpsert dataset_name now 0 "FAILED", .etlLogAdd logF], .error e)
  | .ok raw_rows =>
    let up := SpendingRepository.upsert_many s.spending raw_rows now
    let affected_rows := up.2
    let fresh := DataFreshnessRepository.upsert_status s.data_freshness dataset_name now affected_rows "COMPLETED"
    let logC : EtlLogRow := ⟨dataset_name, .etl country city options, "COMPLETED", now⟩
    let s2 : Storage :=
      { s with spending := up.1, data_freshness := fresh, etl_logs := s.etl_logs ++ [logC] }
    let tr := [StorageOp.datasetUpsert dataset_name affected_rows,
      .freshnessUpsert dataset_name now affected_rows "COMPLETED", .etlLogAdd logC]
    match flush_exc with
    | some e =>
      let fresh2 := DataFreshnessRepository.upsert_status s2.data_freshness dataset_name now 0 "FAILED"
      let logF : EtlLogRow := ⟨dataset_name, .etl country city options, "FAILED", now⟩
      ({ s2 with data_freshness := fresh2, etl_logs := s2.etl_logs ++ [logF] },
        tr ++ [.freshnessUpsert dataset_name now 0 "FAILED", .etlLogAdd logF], .error e)
    | none =>
      (s2, tr, .ok ⟨dataset_name, "COMPLETED", affected_rows, country, city⟩)

/-- Model of `LabourStatsEtlJob.run`. -/
def LabourStatsEtlJob.run (fetch_result : Except PyExc (List LabourStatsInput))
    (flush_exc : Option PyExc) (s : Storage) (country city : Option String)
    (options : OptionsMap) (now : String) :
    Storage × List StorageOp × Except PyExc LabourStatsEtlResult :=
  let dataset_name := "labour_stats"
  match fetch_result with
  | .error e =>
    let fresh := DataFreshnessRepository.upsert_status s.data_freshness dataset_name now 0 "FAILED"
    let logF : EtlLogRow := ⟨dataset_name, .etl country city options, "FAILED", now⟩
    ({ s with data_freshness := fresh, etl_logs := s.etl_logs ++ [logF] },
      [.freshnessUpsert dataset_name now 0 "FAILED", .etlLogAdd logF], .error e)
  | .ok raw_rows =>
    let up := LabourStatsRepository.upsert_many s.labour_stats raw_rows now
    let affected_rows := up.2
    let fresh := DataFreshnessRepository.upsert_status s.data_freshness dataset_name now affected_rows "COMPLETED"
    let logC : EtlLogRow := ⟨dataset_name, .etl country city options, "COMPLETED", now⟩
    let s2 : Storage :=
      { s with labour_stats := up.1, data_freshness := fresh, etl_logs := s.etl_logs ++ [logC] }
    let tr := [StorageOp.datasetUpsert dataset_name affected_rows,
      .freshnessUpsert dataset_name now affected_rows "COMPLETED", .etlLogAdd logC]
    match flush_exc with
    | some e =>
      let fresh2 := DataFreshnessRepository.upsert_status s2.data_freshness dataset_name now 0 "FAILED"
      let logF : EtlLogRow := ⟨dataset_name, .etl country city options, "FAILED", now⟩
      ({ s2 with data_freshness := fresh2, etl_logs := s2.etl_logs ++ [logF] },
        tr ++ [.freshnessUpsert dataset_name now 0 "FAILED", .etlLogAdd logF], .error e)
    | none =>
      (s2, tr, .ok ⟨dataset_name, "COMPLETED", affected_rows, country, city⟩)

/-- Model of `BusinessDensityEtlJob.run`. -/
def BusinessDensityEtlJob.run (fetch_result : Except PyExc (List BusinessDensityInput))
    (flush_exc : Option PyExc) (s : Storage) (country city : Option String)
    (options : OptionsMap) (now : String) :
    Storage × List StorageOp × Except PyExc BusinessDensityEtlResult :=
  let dataset_name := "business_density"
  match fetch_result with
  | .error e =>
    let fresh := DataFreshnessRepository.upsert_status s.data_freshness dataset_name now 0 "FAILED"
    let logF : EtlLogRow := ⟨dataset_name, .etl country city options, "FAILED", now⟩
    ({ s with data_freshness := fresh, etl_logs := s.etl_logs ++ [logF] },
      [.freshnessUpsert dataset_name now 0 "FAILED", .etlLogAdd logF], .error e)
  | .ok raw_rows =>
    let up := BusinessDensityRepository.upsert_many s.business_density raw_rows now
    let affected_rows := up.2
    let fresh := DataFreshnessRepository.upsert_status s.data_freshness dataset_name now affected_rows "COMPLETED"
    let logC : EtlLogRow := ⟨dataset_name, .etl country city options, "COMPLETED", now⟩
    let s2 : Storage :=
      { s with business_density := up.1, data_freshness := fresh, etl_logs := s.etl_logs ++ [logC] }
    let tr := [StorageOp.datasetUpsert dataset_name affected_rows,
      .freshnessUpsert dataset_name now affected_rows "COMPLETED", .etlLogAdd logC]
    match flush_exc with
    | some e =>
      let fresh2 := DataFreshnessRepository.upsert_status s2.data_freshness dataset_name now 0 "FAILED"
      let logF : EtlLogRow := ⟨dataset_name, .etl country city options, "FAILED", now⟩
      ({ s2 with data_freshness := fresh2, etl_logs := s2.etl_logs ++ [logF] },
        tr ++ [.freshnessUpsert dataset_name now 0 "FAILED", .etlLogAdd logF], .error e)
    | none =>
      (s2, tr, .ok ⟨dataset_name, "COMPLETED", affected_rows, country, city⟩)

/-! ### Embedding rebuild job (`jobs/rebuild_embeddings_job.py`)

The region document the job serializes with `json.dumps(..., sort_keys=True,
separators=(",", ":"))` is represented by the `Snapshot` record it serializes;
the serialization is injective on this record, so document equality and
ordering claims transfer unchanged.  Decimal fields are stringified exactly
where the code calls `str(...)`.  The embedding client is the oracle
`embed_texts`; `openai_embedding_dimensions` is the `embedding_dims`
argument. -/

/-- The `"demographics"` part of a region snapshot. -/
structure DemoSnap where
  population_total : Option Int
  median_income : Option String
deriving DecidableEq, Repr

/-- The `"labour_stats"` part of a region snapshot. -/
structure LabourSnap where
  unemployment_rate : Option String
  median_salary : Option String
  job_openings : Option Int
deriving DecidableEq, Repr

/-- One entry of the `"spending"` list of a region snapshot. -/
structure SpendSnap where
  category : String
  avg_monthly_spend : Option String
  spend_idx : Option String
deriving DecidableEq, Repr

/-- One entry of the `"business_density"` list of a region snapshot. -/
structure DensSnap where
  business_type : String
  count : Option Int
  density_score : Option String
deriving DecidableEq, Repr

/-- The canonical per-region snapshot built by `_build_region_document`. -/
structure Snapshot where
  geo_id : String
  city : String
  country : Option String
  demographics : Option DemoSnap
  labour_stats : Option LabourSnap
  spending : List SpendSnap
  business_density : List DensSnap
  options : OptionsMap
deriving DecidableEq, Repr

/-- Stringification `str(x) if x is not None else None` of a decimal field. -/
def stringifyOptInt (v : Option Int) : Option String :=
  v.map (fun n => toString n)

/-- Model of `RebuildEmbeddingsJob._build_region_document`. -/
def RebuildEmbeddingsJob.build_region_document (geo_id city : String)
    (country : Option String) (demographics_rows : List DemographicsRow)
    (spending_rows : List SpendingRow) (labour_rows : List LabourStatsRow)
    (density_rows : List BusinessDensityRow) (options : OptionsMap) : Snapshot :=
  let demographics := demographics_rows.find? (fun r => decide (r.geo_id = geo_id))
  let labour := labour_rows.find? (fun r => decide (r.geo_id = geo_id))
  let spending_for_geo := spending_rows.filter (fun r => decide (r.geo_id = geo_id))
  let density_for_geo := density_rows.filter (fun r => decide (r.geo_id = geo_id))
  { geo_id := geo_id
    city := city
    country := country
    demographics := demographics.map (fun d =>
      ⟨some d.population_total, some (toString d.median_income)⟩)
    labour_stats := labour.map (fun l =>
      ⟨stringifyOptInt l.unemployment_rate, stringifyOptInt l.median_salary, l.job_openings⟩)
    spending := spending_for_geo.map (fun r =>
      ⟨r.category, stringifyOptInt r.avg_monthly_spend, stringifyOptInt r.spend_idx⟩)
    business_density := density_for_geo.map (fun r =>
      ⟨r.business_type, r.count, stringifyOptInt r.density_score⟩)
    options := options }

/-- The `geo_ids` set of `RebuildEmbeddingsJob.run`: every `geo_id` occurring
in any of the four read result lists, without duplicates. -/
def rebuildGeoIdPool (demographics_rows : List DemographicsRow)
    (spending_rows : List SpendingRow) (labour_rows : List LabourStatsRow)
    (density_rows : List BusinessDensityRow) : List String :=
  (demographics_rows.map (fun r => r.geo_id) ++
    spending_rows.map (fun r => r.geo_id) ++
    labour_rows.map (fun r => r.geo_id) ++
    density_rows.map (fun r => r.geo_id)).dedup

/-- The `ordered_geo_ids` computation of `RebuildEmbeddingsJob.run`:
`region_filter = set(regions) if regions else None` (so an empty or absent
list filters nothing), membership filter, then `sorted(...)`. -/
def rebuildOrderedGeoIds (pool : List String) (regions : Option (List String)) :
    List String :=
  let region_filter : Option (List String) := match regions with
    | some rs => if rs = [] then none else some rs
    | none => none
  let filtered := match region_filter with
    | some rs => pool.filter (fun g => decide (g ∈ rs))
    | none => pool
  List.insertionSort (fun a b => a ≤ b) filtered

/-- The selected, lexicographically ordered `geo_id` list of one rebuild run,
as read from storage. -/
def RebuildEmbeddingsJob.selected_geo_ids (s : Storage) (c : String)
    (country : Option String) (regions : Option (List String)) : List String :=
  rebuildOrderedGeoIds
    (rebuildGeoIdPool
      (DemographicsRepository.get_for_regions s.demographics c country)
      (SpendingRepository.get_for_regions s.spending c country)
      (LabourStatsRepository.get_for_regions s.labour_stats c country)
      (BusinessDensityRepository.list_by_city_and_type s.business_density c country none))
    regions

/-- Result dataclass `RebuildEmbeddingsResult`. -/
structure RebuildEmbeddingsResult where
  job_name : String
  status : String
  row_count : Nat
  country : Option String
  city : Option String
  region_count : Option Nat
deriving DecidableEq, Repr

/-- Model of `RebuildEmbeddingsJob.run`.  The `if not city` guard sits before
the `try` block, so it raises without touching storage; every failure inside
the `try` appends a FAILED audit row and re-raises.  A client returning fewer
vectors than documents would make `embeddings[idx]` raise `IndexError`. -/
def RebuildEmbeddingsJob.run (embed_texts : List Snapshot → List (List Int))
    (embedding_dims : Nat) (s : Storage) (country city : Option String)
    (regions : Option (List String)) (options : OptionsMap)
    (tenant_id : Option String) (now : String) :
    Storage × List StorageOp × Except PyExc RebuildEmbeddingsResult :=
  let job_name := "rebuild-embeddings"
  match city with
  | none => (s, [], .error (.valueError "city is required for rebuild-embeddings"))
  | some c =>
    if c = "" then
      (s, [], .error (.valueError "city is required for rebuild-embeddings"))
    else
      let demographics_rows := DemographicsRepository.get_for_regions s.demographics c country
      let spending_rows := SpendingRepository.get_for_regions s.spending c country
      let labour_rows := LabourStatsRepository.get_for_regions s.labour_stats c country
      let density_rows := BusinessDensityRepository.list_by_city_and_type s.business_density c country none
      let tr0 := [StorageOp.repoRead "demographics", .repoRead "spending",
        .repoRead "labour_stats", .repoRead "business_density"]
      let ordered_geo_ids := rebuildOrderedGeoIds
        (rebuildGeoIdPool demographics_rows spending_rows labour_rows density_rows) regions
      let documents := ordered_geo_ids.map (fun g =>
        RebuildEmbeddingsJob.build_region_document g c country demographics_rows
          spending_rows labour_rows density_rows options)
      let embeddings := embed_texts documents
      let tr1 := tr0 ++ [StorageOp.embedCall documents.length]
      if embeddings.any (fun vec => vec.length ≠ embedding_dims) then
        let logF : EtlLogRow := ⟨job_name, .rebuild country city regions options, "FAILED", now⟩
        ({ s with etl_logs := s.etl_logs ++ [logF] }, tr1 ++ [.etlLogAdd logF],
          .error (.valueError "Embedding dimensions mismatch with configured schema"))
      else if embeddings.length < ordered_geo_ids.length then
        let logF : EtlLogRow := ⟨job_name, .rebuild country city regions options, "FAILED", now⟩
        ({ s with etl_logs := s.etl_logs ++ [logF] }, tr1 ++ [.etlLogAdd logF],
          .error (.runtimeError "IndexError"))
      else
        let upsert_rows := (ordered_geo_ids.zip embeddings).map (fun p =>
          (⟨tenant_id, p.1, p.2, some ⟨p.1, c, country, options⟩⟩ : VectorInsightInput))
        let upres := VectorInsightsRepository.upsert_many s.vector_insights upsert_rows now
        let affected_rows := upres.2
        let logC : EtlLogRow := ⟨job_name, .rebuild country city regions options, "COMPLETED", now⟩
        ({ s with vector_insights := upres.1, etl_logs := s.etl_logs ++ [logC] },
          tr1 ++ [.vectorUpsert upsert_rows, .etlLogAdd logC],
          .ok ⟨job_name, "COMPLETED", affected_rows, country, city, some ordered_geo_ids.length⟩)

/-! ### Dispatch workers (`jobs/ingestion_worker.py`, `jobs/embedding_worker.py`)

`consume` is embedded up to the handler invocation: it returns the selected
handler together with the keyword arguments `run` is then called with, or the
`ValueError` message raised for an unsupported identifier.  The handler map is
the worker's constructor-normalized dict, built with `IngestionWorker.build` /
`EmbeddingWorker.build` (later duplicate keys overwrite earlier ones, as in a
dict comprehension, hence the last-match lookup in `dictGet`). -/

/-- JSON field as the worker sees it through `payload.get(...)`: absent (or
null), a string, or some non-string value. -/
inductive JStr where
  | missing
  | str (s : String)
  | nonstr
deriving DecidableEq, Repr

/-- Inbound ingestion payload fields read by `IngestionMessage.from_payload`.
`options` is none when absent or null. -/
structure IngestPayload where
  dataset : JStr
  job_name : JStr
  country : Option String
  city : Option String
  options : Option OptionsMap
deriving DecidableEq, Repr

/-- Dataclass `IngestionMessage`. -/
structure IngestionMessage where
  job_name : Option String
  dataset : String
  country : Option String
  city : Option String
  options : OptionsMap
deriving DecidableEq, Repr

/-- Model of `IngestionMessage.from_payload`: the dataset identifier comes
from a non-empty (after strip) string `dataset` field, else from a truthy
`job_name`, else it is empty; `payload.get("options") or {}` returns the
empty map for an absent, null or empty options value. -/
def IngestionMessage.from_payload (payload : IngestPayload) : IngestionMessage :=
  let resolved_job_name : Option String := match payload.job_name with
    | .str s => some s
    | _ => none
  let fallback : String := match resolved_job_name with
    | some j => if j = "" then "" else j
    | none => ""
  let dataset : String := match payload.dataset with
    | .str s => if pyStrip s = "" then fallback else s
    | _ => fallback
  { job_name := resolved_job_name
    dataset := dataset
    country := payload.country
    city := payload.city
    options := payload.options.getD [] }

/-- Model of `IngestionWorker._normalize_dataset_name`:
`dataset_name.lower().replace("-", "_").strip()`. -/
def IngestionWorker.normalize_dataset_name (dataset_name : String) : String :=
  pyStrip (pyCharReplace '-' '_' (pyLower dataset_name))

/-- Dict lookup on an association list with dict-comprehension semantics:
the last binding of a key wins. -/
def dictGet {η : Type} (entries : List (String × η)) (k : String) : Option η :=
  ((entries.filter (fun e => decide (e.1 = k))).getLast?).map (fun e => e.2)

/-- Constructor of `IngestionWorker`: normalize every registered name. -/
def IngestionWorker.build {η : Type} (handlers_by_dataset : List (String × η)) :
    List (String × η) :=
  handlers_by_dataset.map (fun e => (IngestionWorker.normalize_dataset_name e.1, e.2))

/-- Keyword arguments an ingestion handler's `run` is invoked with. -/
structure IngestionRunArgs where
  country : Option String
  city : Option String
  options : OptionsMap
deriving DecidableEq, Repr

/-- Model of `IngestionWorker.consume` over the constructor-normalized
handler map. -/
def IngestionWorker.consume {η : Type} (handlers_by_dataset : List (String × η))
    (payload : IngestPayload) : Except String (η × IngestionRunArgs) :=
  let message := IngestionMessage.from_payload payload
  let normalized_dataset := IngestionWorker.normalize_dataset_name message.dataset
  match dictGet handlers_by_dataset normalized_dataset with
  | none => .error ("Unsupported ingestion dataset: " ++ message.dataset)
  | some handler => .ok (handler, ⟨message.country, message.city, message.options⟩)

/-- Inbound embedding payload fields read by `EmbeddingMessage.from_payload`;
`regions` is none when absent or not a list of strings. -/
structure EmbedPayload where
  job_name : Option String
  country : Option String
  city : Option String
  regions : Option (List String)
  options : Option OptionsMap
deriving DecidableEq, Repr

/-- Dataclass `EmbeddingMessage`. -/
structure EmbeddingMessage where
  job_name : String
  country : Option String
  city : Option String
  regions : Option (List String)
  options : OptionsMap
deriving DecidableEq, Repr

/-- Model of `EmbeddingMessage.from_payload`:
`job_name = str(payload.get("job_name") or "")`. -/
def EmbeddingMessage.from_payload (payload : EmbedPayload) : EmbeddingMessage :=
  { job_name := match payload.job_name with
      | some s => if s = "" then "" else s
      | none => ""
    country := payload.country
    city := payload.city
    regions := payload.regions
    options := payload.options.getD [] }

/-- Model of `EmbeddingWorker._normalize_job_name`:
`job_name.lower().strip()` — note: no hyphen replacement. -/
def EmbeddingWorker.normalize_job_name (job_name : String) : String :=
  pyStrip (pyLower job_name)

/-- Constructor of `EmbeddingWorker`: normalize every registered name. -/
def EmbeddingWorker.build {η : Type} (handlers_by_job_name : List (String × η)) :
    List (String × η) :=
  handlers_by_job_name.map (fun e => (EmbeddingWorker.normalize_job_name e.1, e.2))

/-- Keyword arguments an embedding handler's `run` is invoked with. -/
structure EmbeddingRunArgs where
  country : Option String
  city : Option String
  regions : Option (List String)
  options : OptionsMap
deriving DecidableEq, Repr

/-- Model of `EmbeddingWorker.consume` over the constructor-normalized
handler map. -/
def EmbeddingWorker.consume {η : Type} (handlers_by_job_name : List (String × η))
    (payload : EmbedPayload) : Except String (η × EmbeddingRunArgs) :=
  let message := EmbeddingMessage.from_payload payload
  let normalized_job := EmbeddingWorker.normalize_job_name message.job_name
  match dictGet handlers_by_job_name normalized_job with
  | none => .error ("Unsupported embedding job: " ++ message.job_name)
  | some handler =>
    .ok (handler, ⟨message.country, message.city, message.regions, message.options⟩)

/-- The document list one rebuild run sends to the embedding client, as a
function of storage and inputs (definitionally the `documents` value inside
`RebuildEmbeddingsJob.run`). -/
def RebuildEmbeddingsJob.run_documents (s : Storage) (c : String)
    (country : Option String) (regions : Option (List String))
    (options : OptionsMap) : List Snapshot :=
  (RebuildEmbeddingsJob.selected_geo_ids s c country regions).map (fun g =>
    RebuildEmbeddingsJob.build_region_document g c country
      (DemographicsRepository.get_for_regions s.demographics c country)
      (SpendingRepository.get_for_regions s.spending c country)
      (LabourStatsRepository.get_for_regions s.labour_stats c country)
      (BusinessDensityRepository.list_by_city_and_type s.business_density c country none)
      options)

/-! ### Spec-side definitions

These two definitions follow the words of spec claims (not the source); each
is compared against the corresponding source-derived definition in a
refutation below. -/

/-- Modelled from the claim's words (C6): both workers normalize an identifier
by lower-casing, collapsing hyphens to underscores and trimming surrounding
whitespace. -/
def claimedWorkerNormalize (s : String) : String :=
  pyStrip (pyCharReplace '-' '_' (pyLower s))

/-- Modelled from the claim's words (C5): when a regions filter list is
supplied, the pool is intersected with it, then sorted. -/
def claimedOrderedGeoIds (pool : List String) (regions : Option (List String)) :
    List String :=
  let filtered := match regions with
    | some rs => pool.filter (fun g => decide (g ∈ rs))
    | none => pool
  List.insertionSort (fun a b => a ≤ b) filtered

/-- Number of freshness upserts and audit appends a dataset ETL run issues,
as a function of the two failure oracles: one of each, except that a
persistence failure at the final flush (after the COMPLETED writes) makes the
`except` block issue a second pair. -/
def expectedWriteCount {ρ : Type} (fetch_result : Except PyExc ρ)
    (flush_exc : Option PyExc) : Nat :=
  match fetch_result, flush_exc with
  | .ok _, some _ => 2
  | _, _ => 1

/-! ### Sample rows used by concrete witnesses -/

/-- A concrete demographics input dict. -/
def demographicsSampleInput : DemographicsInput :=
  { tenant_id := none, geo_id := "accra-central", city := "Accra", country := "GH",
    population_total := some 150000, median_income := some 50000,
    age_distribution := some none, education_levels := some none,
    household_size_avg := some none, immigration_pct := some none,
    coordinates := some none }

/-- A concrete spending input dict. -/
def spendingSampleInput : SpendingInput :=
  { tenant_id := none, geo_id := "accra-central", country := "GH", city := "Accra",
    category := "groceries", avg_monthly_spend := some (some 350),
    spend_idx := some (some 1) }

/-- A concrete stored demographics row sharing `demographicsSampleInput`'s
natural key but with its own tenant and values. -/
def demographicsSampleRow : DemographicsRow :=
  { tenant_id := some "tenant-1", geo_id := "accra-central", city := "Accra",
    country := "GH", population_total := 1, median_income := 2,
    age_distribution := none, education_levels := none,
    household_size_avg := none, immigration_pct := none, coordinates := none,
    last_updated := "t0" }

/-- A concrete stored spending row sharing `spendingSampleInput`'s natural
key. -/
def spendingSampleRow : SpendingRow :=
  { tenant_id := some "tenant-1", geo_id := "accra-central", country := "GH",
    city := "Accra", category := "groceries", avg_monthly_spend := some 10,
    spend_idx := some 3, last_updated := "t0" }

/-- A concrete Overpass response element list: the first element has no
resolvable coordinates, the second one does. -/
def osmSampleElements : List OsmElement :=
  [⟨some 1, some "node", none, none, none⟩,
    ⟨some 2, some "node", some 5, some 6, none⟩]

/-- Concrete OSM settings with a coordinate-sample cap of 1. -/
def osmSampleSettings : OsmSettings :=
  { osm_default_country := "GH", osm_city_geo_id_suffix := "citywide",
    osm_max_coordinate_samples := 1 }

/-! ### Lemmas about the generic upsert loop -/

section UpsertLemmas

variable {α β κ γ : Type} [DecidableEq κ]
variable (keyA : α → κ) (keyB : β → κ) (upd : β → α → α) (ins : β → α)

/-- A table has unique natural keys when no key occurs in two rows. -/
def UniqueKeys (keyA : α → κ) (s : List α) : Prop :=
  ∀ k, countKey keyA k s ≤ 1

theorem countKey_nil (k : κ) : countKey keyA k [] = 0 := rfl

theorem countKey_cons (k : κ) (x : α) (xs : List α) :
    countKey keyA k (x :: xs) = countKey keyA k xs + (if keyA x = k then 1 else 0) := by
  simp [countKey, List.countP_cons]

theorem countKey_pos_iff (k : κ) (s : List α) :
    0 < countKey keyA k s ↔ ∃ a ∈ s, keyA a = k := by
  unfold countKey
  rw [List.countP_pos_iff]
  simp

theorem upsertStep_nil (b : β) :
    upsertStep keyA keyB upd ins [] b = [ins b] := rfl

theorem upsertStep_cons (b : β) (x : α) (xs : List α) :
    upsertStep keyA keyB upd ins (x :: xs) b =
      if keyA x = keyB b then upd b x :: xs
      else x :: upsertStep keyA keyB upd ins xs b := by
  by_cases h : keyA x = keyB b
  · simp [upsertStep, updateFirst, h]
  · cases h2 : updateFirst (fun a => decide (keyA a = keyB b)) (upd b) xs with
    | none => simp [upsertStep, updateFirst, h, h2]
    | some s2 => simp [upsertStep, updateFirst, h, h2]

theorem upsertStep_countKey
    (hupd : ∀ b a, keyA (upd b a) = keyA a) (hins : ∀ b, keyA (ins b) = keyB b)
    (s : List α) (b : β) (k : κ) :
    countKey keyA k (upsertStep keyA keyB upd ins s b) =
      if ∃ a ∈ s, keyA a = keyB b then countKey keyA k s
      else countKey keyA k s + (if keyB b = k then 1 else 0) := by
  induction s with
  | nil =>
    simp [upsertStep_nil, countKey_nil, countKey_cons, hins]
  | cons x xs ih =>
    rw [upsertStep_cons]
    by_cases hx : keyA x = keyB b
    · have hex : ∃ a ∈ x :: xs, keyA a = keyB b := ⟨x, List.mem_cons_self x xs, hx⟩
      rw [if_pos hx, if_pos hex, countKey_cons, countKey_cons, hupd]
    · have hiff : (∃ a ∈ x :: xs, keyA a = keyB b) ↔ ∃ a ∈ xs, keyA a = keyB b := by
        constructor
        · rintro ⟨a, ha, hk⟩
          rcases List.mem_cons.mp ha with rfl | ha2
          · exact absurd hk hx
          · exact ⟨a, ha2, hk⟩
        · rintro ⟨a, ha, hk⟩
          exact ⟨a, List.mem_cons_of_mem x ha, hk⟩
      rw [if_neg hx]
      by_cases hex : ∃ a ∈ xs, keyA a = keyB b
      · rw [if_pos (hiff.mpr hex), countKey_cons, ih, if_pos hex, countKey_cons]
      · rw [if_neg (fun h => hex (hiff.mp h)), countKey_cons, ih, if_neg hex,
          countKey_cons]
        ring

theorem upsertStep_get? (π : α → γ) (hupd : ∀ b a, π (upd b a) = π a)
    (s : List α) (b : β) :
    ∀ (i : Nat) (a : α), s[i]? = some a →
      ∃ a2, (upsertStep keyA keyB upd ins s b)[i]? = some a2 ∧ π a2 = π a := by
  induction s with
  | nil => intro i a h; simp at h
  | cons x xs ih =>
    intro i a h
    rw [upsertStep_cons]
    by_cases hx : keyA x = keyB b
    · rw [if_pos hx]
      cases i with
      | zero =>
        simp at h
        exact ⟨upd b x, by simp, by rw [hupd, h]⟩
      | succ j =>
        simp at h ⊢
        exact ⟨a, h, rfl⟩
    · rw [if_neg hx]
      cases i with
      | zero =>
        simp at h
        exact ⟨x, by simp, by rw [h]⟩
      | succ j =>
        simp at h ⊢
        exact ih j a h

theorem upsertStep_mem (s : List α) (b : β) (a2 : α)
    (h : a2 ∈ upsertStep keyA keyB upd ins s b) :
    a2 ∈ s ∨ (∃ x ∈ s, a2 = upd b x) ∨ a2 = ins b := by
  induction s with
  | nil =>
    rw [upsertStep_nil] at h
    right; right
    simpa using h
  | cons x xs ih =>
    rw [upsertStep_cons] at h
    by_cases hx : keyA x = keyB b
    · rw [if_pos hx] at h
      rcases List.mem_cons.mp h with rfl | h2
      · right; left; exact ⟨x, List.mem_cons_self x xs, rfl⟩
      · left; exact List.mem_cons_of_mem x h2
    · rw [if_neg hx] at h
      rcases List.mem_cons.mp h with rfl | h2
      · left; exact List.mem_cons_self a2 xs
      · rcases ih h2 with h3 | ⟨y, hy, rfl⟩ | h3
        · left; exact List.mem_cons_of_mem x h3
        · right; left; exact ⟨y, List.mem_cons_of_mem x hy, rfl⟩
        · right; right; exact h3

theorem upsertStep_forall (P : α → Prop) (s : List α) (b : β)
    (hP : ∀ a ∈ s, P a) (hu : ∀ x, P (upd b x)) (hi : P (ins b)) :
    ∀ a2 ∈ upsertStep keyA keyB upd ins s b, P a2 := by
  intro a2 h
  rcases upsertStep_mem keyA keyB upd ins s b a2 h with h2 | ⟨x, _, rfl⟩ | rfl
  · exact hP a2 h2
  · exact hu x
  · exact hi

theorem upsertStep_uniqueKeys
    (hupd : ∀ b a, keyA (upd b a) = keyA a) (hins : ∀ b, keyA (ins b) = keyB b)
    (s : List α) (b : β) (hs : UniqueKeys keyA s) :
    UniqueKeys keyA (upsertStep keyA keyB upd ins s b) := by
  intro k
  rw [upsertStep_countKey keyA keyB upd ins hupd hins]
  by_cases hex : ∃ a ∈ s, keyA a = keyB b
  · rw [if_pos hex]; exact hs k
  · rw [if_neg hex]
    by_cases hk : keyB b = k
    · have h0 : countKey keyA k s = 0 := by
        by_contra hne
        exact hex (by
          have := (countKey_pos_iff keyA k s).mp (Nat.pos_of_ne_zero hne)
          rcases this with ⟨a, ha, hka⟩
          exact ⟨a, ha, by rw [hka, hk]⟩)
      rw [h0, if_pos hk]
    · rw [if_neg hk]
      simpa using hs k

theorem upsertStep_key_establish (Q : α → Prop)
    (hupd : ∀ b a, keyA (upd b a) = keyA a) (hins : ∀ b, keyA (ins b) = keyB b)
    (s : List α) (b : β) (hcount : countKey keyA (keyB b) s ≤ 1)
    (hQu : ∀ x, Q (upd b x)) (hQi : Q (ins b)) :
    ∀ a2 ∈ upsertStep keyA keyB upd ins s b, keyA a2 = keyB b → Q a2 := by
  induction s with
  | nil =>
    rw [upsertStep_nil]
    intro a2 h _
    rcases List.mem_singleton.mp h with rfl
    exact hQi
  | cons x xs ih =>
    rw [upsertStep_cons]
    by_cases hx : keyA x = keyB b
    · rw [if_pos hx]
      intro a2 h hk
      rcases List.mem_cons.mp h with rfl | h2
      · exact hQu x
      · exfalso
        have hpos : 0 < countKey keyA (keyB b) xs :=
          (countKey_pos_iff keyA (keyB b) xs).mpr ⟨a2, h2, hk⟩
        have : countKey keyA (keyB b) (x :: xs) =
            countKey keyA (keyB b) xs + 1 := by
          rw [countKey_cons, if_pos hx]
        omega
    · rw [if_neg hx]
      intro a2 h hk
      rcases List.mem_cons.mp h with rfl | h2
      · exact absurd hk hx
      · have hcount2 : countKey keyA (keyB b) xs ≤ 1 := by
          have := countKey_cons keyA (keyB b) x xs
          omega
        exact ih hcount2 a2 h2 hk

theorem upsertMany_fst (s : List α) (n : Nat) (rows : List β) :
    (upsertMany keyA keyB upd ins (s, n) rows).1 =
      upsertList keyA keyB upd ins s rows := by
  induction rows generalizing s n with
  | nil => rfl
  | cons b rest ih => exact ih (upsertStep keyA keyB upd ins s b) (n + 1)

theorem upsertMany_snd (s : List α) (n : Nat) (rows : List β) :
    (upsertMany keyA keyB upd ins (s, n) rows).2 = n + rows.length := by
  induction rows generalizing s n with
  | nil => simp [upsertMany]
  | cons b rest ih =>
    have := ih (upsertStep keyA keyB upd ins s b) (n + 1)
    simp only [upsertMany] at this ⊢
    rw [List.foldl_cons, this, List.length_cons]
    omega

theorem upsertList_cons (s : List α) (b : β) (rest : List β) :
    upsertList keyA keyB upd ins s (b :: rest) =
      upsertList keyA keyB upd ins (upsertStep keyA keyB upd ins s b) rest := rfl

theorem upsertList_countKey_of_mem
    (hupd : ∀ b a, keyA (upd b a) = keyA a) (hins : ∀ b, keyA (ins b) = keyB b)
    (rows : List β) (s : List α) (k : κ) (hk : 0 < countKey keyA k s) :
    countKey keyA k (upsertList keyA keyB upd ins s rows) = countKey keyA k s := by
  induction rows generalizing s with
  | nil => rfl
  | cons b rest ih =>
    rw [upsertList_cons]
    have hstep : countKey keyA k (upsertStep keyA keyB upd ins s b) =
        countKey keyA k s := by
      rw [upsertStep_countKey keyA keyB upd ins hupd hins]
      by_cases hex : ∃ a ∈ s, keyA a = keyB b
      · rw [if_pos hex]
      · rw [if_neg hex]
        by_cases hbk : keyB b = k
        · exfalso
          rcases (countKey_pos_iff keyA k s).mp hk with ⟨a, ha, hka⟩
          exact hex ⟨a, ha, by rw [hka, hbk]⟩
        · rw [if_neg hbk]
          omega
    rw [ih (upsertStep keyA keyB upd ins s b) (by rw [hstep]; exact hk), hstep]

theorem upsertList_uniqueKeys
    (hupd : ∀ b a, keyA (upd b a) = keyA a) (hins : ∀ b, keyA (ins b) = keyB b)
    (rows : List β) (s : List α) (hs : UniqueKeys keyA s) :
    UniqueKeys keyA (upsertList keyA keyB upd ins s rows) := by
  induction rows generalizing s with
  | nil => exact hs
  | cons b rest ih =>
    rw [upsertList_cons]
    exact ih _ (upsertStep_uniqueKeys keyA keyB upd ins hupd hins s b hs)

theorem upsertList_get? (π : α → γ) (hupd : ∀ b a, π (upd b a) = π a)
    (rows : List β) (s : List α) :
    ∀ (i : Nat) (a : α), s[i]? = some a →
      ∃ a2, (upsertList keyA keyB upd ins s rows)[i]? = some a2 ∧ π a2 = π a := by
  induction rows generalizing s with
  | nil => intro i a h; exact ⟨a, h, rfl⟩
  | cons b rest ih =>
    intro i a h
    rcases upsertStep_get? keyA keyB upd ins π hupd s b i a h with ⟨a2, h2, hπ⟩
    rcases ih (upsertStep keyA keyB upd ins s b) i a2 h2 with ⟨a3, h3, hπ2⟩
    exact ⟨a3, h3, by rw [hπ2, hπ]⟩

theorem upsertList_key_present
    (hupd : ∀ b a, keyA (upd b a) = keyA a) (hins : ∀ b, keyA (ins b) = keyB b)
    (rows : List β) (s : List α) :
    ∀ b ∈ rows, 0 < countKey keyA (keyB b) (upsertList keyA keyB upd ins s rows) := by
  induction rows generalizing s with
  | nil => intro b h; simp at h
  | cons b0 rest ih =>
    intro b hb
    rw [upsertList_cons]
    rcases List.mem_cons.mp hb with rfl | hb2
    · have hstep : 0 < countKey keyA (keyB b) (upsertStep keyA keyB upd ins s b) := by
        rw [upsertStep_countKey keyA keyB upd ins hupd hins]
        by_cases hex : ∃ a ∈ s, keyA a = keyB b
        · rw [if_pos hex]
          exact (countKey_pos_iff keyA (keyB b) s).mpr hex
        · rw [if_neg hex, if_pos rfl]
          omega
      rw [upsertList_countKey_of_mem keyA keyB upd ins hupd hins rest _ _ hstep]
      exact hstep
    · exact ih (upsertStep keyA keyB upd ins s b0) b hb2

theorem upsertList_forall (P : α → Prop) (rows : List β) (s : List α)
    (hP : ∀ a ∈ s, P a) (hu : ∀ b x, P (upd b x)) (hi : ∀ b, P (ins b)) :
    ∀ a2 ∈ upsertList keyA keyB upd ins s rows, P a2 := by
  induction rows generalizing s with
  | nil => exact hP
  | cons b rest ih =>
    rw [upsertList_cons]
    exact ih _ (upsertStep_forall keyA keyB upd ins P s b hP (hu b) (hi b))

theorem upsertList_key_establish (Q : α → Prop)
    (hupd : ∀ b a, keyA (upd b a) = keyA a) (hins : ∀ b, keyA (ins b) = keyB b)
    (rows : List β) (s : List α) (hs : UniqueKeys keyA s)
    (hQu : ∀ b x, Q (upd b x)) (hQi : ∀ b, Q (ins b)) :
    ∀ b ∈ rows, ∀ a2 ∈ upsertList keyA keyB upd ins s rows,
      keyA a2 = keyB b → Q a2 := by
  induction rows generalizing s with
  | nil => intro b h; simp at h
  | cons b0 rest ih
  =>
    intro b hb
    rw [upsertList_cons]
    rcases List.mem_cons.mp hb with rfl | hb2
    · have hstep : ∀ a2 ∈ upsertStep keyA keyB upd ins s b,
          keyA a2 = keyB b → Q a2 :=
        upsertStep_key_establish keyA keyB upd ins Q hupd hins s b (hs (keyB b))
          (hQu b) (hQi b)
      intro a2 ha2 hk
      exact upsertList_forall keyA keyB upd ins
        (fun a => keyA a = keyB b → Q a) rest _ hstep
        (fun b' x _ => hQu b' x) (fun b' _ => hQi b') a2 ha2 hk
    · exact ih (upsertStep keyA keyB upd ins s b0)
        (upsertStep_uniqueKeys keyA keyB upd ins hupd hins s b0 hs) b hb2

end UpsertLemmas

/-! ### Lemmas about the freshness upsert -/

theorem upsert_status_nil (n lr : String) (rc : Nat) (st : String) :
    DataFreshnessRepository.upsert_status [] n lr rc st = [⟨n, lr, rc, st⟩] := rfl

theorem upsert_status_cons (x : FreshnessRecord) (xs : List FreshnessRecord)
    (n lr : String) (rc : Nat) (st : String) :
    DataFreshnessRepository.upsert_status (x :: xs) n lr rc st =
      if x.dataset_name = n then
        { x with last_run := lr, row_count := rc, status := st } :: xs
      else x :: DataFreshnessRepository.upsert_status xs n lr rc st := by
  by_cases h : x.dataset_name = n
  · simp [DataFreshnessRepository.upsert_status, updateFirst, h]
  · cases h2 : updateFirst (fun r => decide (r.dataset_name = n))
        (fun r => { r with last_run := lr, row_count := rc, status := st }) xs with
    | none => simp [DataFreshnessRepository.upsert_status, updateFirst, h, h2]
    | some s2 => simp [DataFreshnessRepository.upsert_status, updateFirst, h, h2]

theorem upsert_status_find (s : List FreshnessRecord) (n lr : String)
    (rc : Nat) (st : String) :
    (DataFreshnessRepository.upsert_status s n lr rc st).find?
      (fun r => decide (r.dataset_name = n)) = some ⟨n, lr, rc, st⟩ := by
  induction s with
  | nil => simp [upsert_status_nil, List.find?]
  | cons x xs ih =>
    rw [upsert_status_cons]
    by_cases h : x.dataset_name = n
    · rw [if_pos h]
      have : ({ x with last_run := lr, row_count := rc, status := st } :
          FreshnessRecord) = ⟨n, lr, rc, st⟩ := by
        cases x
        simp_all
      rw [this]
      simp [List.find?]
    · rw [if_neg h]
      simp [List.find?, h]
      exact ih

/-! ### Claim C1 -/

/-- C1 (amended): each of the four dataset ETL jobs issues exactly one
freshness upsert and exactly one audit append when the run returns COMPLETED
or when the Source Client raises, but when the failure occurs after the
COMPLETED freshness/audit writes were already issued (the final flush
raising), the `except` block issues a second FAILED freshness upsert and a
second FAILED audit append — exactly two of each, not one. -/
theorem etl_run_write_counts
    (s : Storage) (country city : Option String) (options : OptionsMap)
    (now : String) (flush_exc : Option PyExc)
    (demFetch : Except PyExc (List DemographicsInput))
    (spFetch : Except PyExc (List SpendingInput))
    (laFetch : Except PyExc (List LabourStatsInput))
    (bdFetch : Except PyExc (List BusinessDensityInput)) :
    (freshnessWriteCount
        (DemographicsEtlJob.run demFetch flush_exc s country city options now).2.1 =
        expectedWriteCount demFetch flush_exc ∧
      auditAppendCount
        (DemographicsEtlJob.run demFetch flush_exc s country city options now).2.1 =
        expectedWriteCount demFetch flush_exc) ∧
    (freshnessWriteCount
        (SpendingEtlJob.run spFetch flush_exc s country city options now).2.1 =
        expectedWriteCount spFetch flush_exc ∧
      auditAppendCount
        (SpendingEtlJob.run spFetch flush_exc s country city options now).2.1 =
        expectedWriteCount spFetch flush_exc) ∧
    (freshnessWriteCount
        (LabourStatsEtlJob.run laFetch flush_exc s country city options now).2.1 =
        expectedWriteCount laFetch flush_exc ∧
      auditAppendCount
        (LabourStatsEtlJob.run laFetch flush_exc s country city options now).2.1 =
        expectedWriteCount laFetch flush_exc) ∧
    (freshnessWriteCount
        (BusinessDensityEtlJob.run bdFetch flush_exc s country city options now).2.1 =
        expectedWriteCount bdFetch flush_exc ∧
      auditAppendCount
        (BusinessDensityEtlJob.run bdFetch flush_exc s country city options now).2.1 =
        expectedWriteCount bdFetch flush_exc) := by
  refine ⟨?_, ?_, ?_, ?_⟩
  · cases demFetch <;> cases flush_exc <;>
      simp [DemographicsEtlJob.run, expectedWriteCount, freshnessWriteCount,
        auditAppendCount, List.countP_cons, List.countP_append,
        StorageOp.isFreshnessUpsert, StorageOp.isEtlLogAdd]
  · cases spFetch <;> cases flush_exc <;>
      simp [SpendingEtlJob.run, expectedWriteCount, freshnessWriteCount,
        auditAppendCount, List.countP_cons, List.countP_append,
        StorageOp.isFreshnessUpsert, StorageOp.isEtlLogAdd]
  · cases laFetch <;> cases flush_exc <;>
      simp [LabourStatsEtlJob.run, expectedWriteCount, freshnessWriteCount,
        auditAppendCount, List.countP_cons, List.countP_append,
        StorageOp.isFreshnessUpsert, StorageOp.isEtlLogAdd]
  · cases bdFetch <;> cases flush_exc <;>
      simp [BusinessDensityEtlJob.run, expectedWriteCount, freshnessWriteCount,
        auditAppendCount, List.countP_cons, List.countP_append,
        StorageOp.isFreshnessUpsert, StorageOp.isEtlLogAdd]

/-- C1 counterexample: a demographics run whose final flush raises after the
COMPLETED freshness/audit writes issues two freshness upserts and two audit
appends — refuting "never more than one of either, including when the failure
occurs after the COMPLETED freshness/audit writes have already been issued". -/
theorem etl_run_write_counts_cex :
    freshnessWriteCount (DemographicsEtlJob.run (Except.ok [])
        (some (PyExc.persistenceError "flush")) Storage.empty none none [] "t0").2.1 = 2 ∧
    auditAppendCount (DemographicsEtlJob.run (Except.ok [])
        (some (PyExc.persistenceError "flush")) Storage.empty none none [] "t0").2.1 = 2 := by
  decide

/-! ### Claim C2 -/

/-- C2 (confirmed): for each of the four ETL jobs, when the Source Client's
fetch raises, `run` (1) writes a freshness record for the dataset with status
FAILED, `row_count = 0` and `last_run` equal to the job-start timestamp,
(2) appends exactly one FAILED audit row carrying the
`{country, city, options}` payload, and (3) re-raises the original
exception value unchanged. -/
theorem etl_run_failure_propagation
    (s : Storage) (country city : Option String) (options : OptionsMap)
    (now : String) (flush_exc : Option PyExc) (e : PyExc) :
    (DemographicsEtlJob.run (.error e) flush_exc s country city options now =
      ({ s with
          data_freshness :=
            DataFreshnessRepository.upsert_status s.data_freshness "demographics" now 0 "FAILED"
          etl_logs := s.etl_logs ++
            [⟨"demographics", .etl country city options, "FAILED", now⟩] },
        [.freshnessUpsert "demographics" now 0 "FAILED",
          .etlLogAdd ⟨"demographics", .etl country city options, "FAILED", now⟩],
        .error e) ∧
      (DemographicsEtlJob.run (.error e) flush_exc s country city options now).1.data_freshness.find?
        (fun r => decide (r.dataset_name = "demographics")) =
        some ⟨"demographics", now, 0, "FAILED"⟩) ∧
    (SpendingEtlJob.run (.error e) flush_exc s country city options now =
      ({ s with
          data_freshness :=
            DataFreshnessRepository.upsert_status s.data_freshness "spending" now 0 "FAILED"
          etl_logs := s.etl_logs ++
            [⟨"spending", .etl country city options, "FAILED", now⟩] },
        [.freshnessUpsert "spending" now 0 "FAILED",
          .etlLogAdd ⟨"spending", .etl country city options, "FAILED", now⟩],
        .error e) ∧
      (SpendingEtlJob.run (.error e) flush_exc s country city options now).1.data_freshness.find?
        (fun r => decide (r.dataset_name = "spending")) =
        some ⟨"spending", now, 0, "FAILED"⟩) ∧
    (LabourStatsEtlJob.run (.error e) flush_exc s country city options now =
      ({ s with
          data_freshness :=
            DataFreshnessRepository.upsert_status s.data_freshness "labour_stats" now 0 "FAILED"
          etl_logs := s.etl_logs ++
            [⟨"labour_stats", .etl country city options, "FAILED", now⟩] },
        [.freshnessUpsert "labour_stats" now 0 "FAILED",
          .etlLogAdd ⟨"labour_stats", .etl country city options, "FAILED", now⟩],
        .error e) ∧
      (LabourStatsEtlJob.run (.error e) flush_exc s country city options now).1.data_freshness.find?
        (fun r => decide (r.dataset_name = "labour_stats")) =
        some ⟨"labour_stats", now, 0, "FAILED"⟩) ∧
    (BusinessDensityEtlJob.run (.error e) flush_exc s country city options now =
      ({ s with
          data_freshness :=
            DataFreshnessRepository.upsert_status s.data_freshness "business_density" now 0 "FAILED"
          etl_logs := s.etl_logs ++
            [⟨"business_density", .etl country city options, "FAILED", now⟩] },
        [.freshnessUpsert "business_density" now 0 "FAILED",
          .etlLogAdd ⟨"business_density", .etl country city options, "FAILED", now⟩],
        .error e) ∧
      (BusinessDensityEtlJob.run (.error e) flush_exc s country city options now).1.data_freshness.find?
        (fun r => decide (r.dataset_name = "business_density")) =
        some ⟨"business_density", now, 0, "FAILED"⟩) :=
  ⟨⟨rfl, upsert_status_find s.data_freshness "demographics" now 0 "FAILED"⟩,
    ⟨rfl, upsert_status_find s.data_freshness "spending" now 0 "FAILED"⟩,
    ⟨rfl, upsert_status_find s.data_freshness "labour_stats" now 0 "FAILED"⟩,
    ⟨rfl, upsert_status_find s.data_freshness "business_density" now 0 "FAILED"⟩⟩

/-! ### Claim C3 -/

/-- C3 (confirmed): calling a Dataset Repository's `upsert_many` twice with
identical rows against the same (key-unique) storage returns the input length
as the affected count from both calls, leaves the table key-unique with
exactly one stored row per input natural key, and every stored row matching
an input key carries the second call's `last_updated` timestamp.  Shown for
the demographics and spending repositories. -/
theorem upsert_many_idempotent
    (demStorage : List DemographicsRow) (demRows : List DemographicsInput)
    (spStorage : List SpendingRow) (spRows : List SpendingInput)
    (ts1 ts2 : String)
    (hdem : UniqueKeys DemographicsRow.natKey demStorage)
    (hsp : UniqueKeys SpendingRow.natKey spStorage) :
    ((DemographicsRepository.upsert_many demStorage demRows ts1).2 = demRows.length ∧
      (DemographicsRepository.upsert_many
        (DemographicsRepository.upsert_many demStorage demRows ts1).1 demRows ts2).2 =
        demRows.length ∧
      UniqueKeys DemographicsRow.natKey
        (DemographicsRepository.upsert_many
          (DemographicsRepository.upsert_many demStorage demRows ts1).1 demRows ts2).1 ∧
      (∀ b ∈ demRows, countKey DemographicsRow.natKey b.natKey
        (DemographicsRepository.upsert_many
          (DemographicsRepository.upsert_many demStorage demRows ts1).1 demRows ts2).1 = 1) ∧
      (∀ b ∈ demRows, ∀ a ∈ (DemographicsRepository.upsert_many
          (DemographicsRepository.upsert_many demStorage demRows ts1).1 demRows ts2).1,
        a.natKey = b.natKey → a.last_updated = ts2)) ∧
    ((SpendingRepository.upsert_many spStorage spRows ts1).2 = spRows.length ∧
      (SpendingRepository.upsert_many
        (SpendingRepository.upsert_many spStorage spRows ts1).1 spRows ts2).2 =
        spRows.length ∧
      UniqueKeys SpendingRow.natKey
        (SpendingRepository.upsert_many
          (SpendingRepository.upsert_many spStorage spRows ts1).1 spRows ts2).1 ∧
      (∀ b ∈ spRows, countKey SpendingRow.natKey b.natKey
        (SpendingRepository.upsert_many
          (SpendingRepository.upsert_many spStorage spRows ts1).1 spRows ts2).1 = 1) ∧
      (∀ b ∈ spRows, ∀ a ∈ (SpendingRepository.upsert_many
          (SpendingRepository.upsert_many spStorage spRows ts1).1 spRows ts2).1,
        a.natKey = b.natKey → a.last_updated = ts2)) := by
  have hupdD : ∀ (ts : String) (b : DemographicsInput) (a : DemographicsRow),
      DemographicsRow.natKey (DemographicsRepository.applyUpdate ts b a) =
        DemographicsRow.natKey a := fun _ _ _ => rfl
  have hinsD : ∀ (ts : String) (b : DemographicsInput),
      DemographicsRow.natKey (DemographicsRepository.buildInsert ts b) =
        DemographicsInput.natKey b := fun _ _ => rfl
  have hupdS : ∀ (ts : String) (b : SpendingInput) (a : SpendingRow),
      SpendingRow.natKey (SpendingRepository.applyUpdate ts b a) =
        SpendingRow.natKey a := fun _ _ _ => rfl
  have hinsS : ∀ (ts : String) (b : SpendingInput),
      SpendingRow.natKey (SpendingRepository.buildInsert ts b) =
        SpendingInput.natKey b := fun _ _ => rfl
  simp only [DemographicsRepository.upsert_many, SpendingRepository.upsert_many,
    upsertMany_fst, upsertMany_snd, Nat.zero_add]
  have huD1 := upsertList_uniqueKeys DemographicsRow.natKey DemographicsInput.natKey
    (DemographicsRepository.applyUpdate ts1) (DemographicsRepository.buildInsert ts1)
    (hupdD ts1) (hinsD ts1) demRows demStorage hdem
  have huD2 := upsertList_uniqueKeys DemographicsRow.natKey DemographicsInput.natKey
    (DemographicsRepository.applyUpdate ts2) (DemographicsRepository.buildInsert ts2)
    (hupdD ts2) (hinsD ts2) demRows _ huD1
  have huS1 := upsertList_uniqueKeys SpendingRow.natKey SpendingInput.natKey
    (SpendingRepository.applyUpdate ts1) (SpendingRepository.buildInsert ts1)
    (hupdS ts1) (hinsS ts1) spRows spStorage hsp
  have huS2 := upsertList_uniqueKeys SpendingRow.natKey SpendingInput.natKey
    (SpendingRepository.applyUpdate ts2) (SpendingRepository.buildInsert ts2)
    (hupdS ts2) (hinsS ts2) spRows _ huS1
  refine ⟨⟨trivial, trivial, huD2, ?_, ?_⟩, ⟨trivial, trivial, huS2, ?_, ?_⟩⟩
  · intro b hb
    have hpos := upsertList_key_present DemographicsRow.natKey DemographicsInput.natKey
      (DemographicsRepository.applyUpdate ts2) (DemographicsRepository.buildInsert ts2)
      (hupdD ts2) (hinsD ts2) demRows
      (upsertList DemographicsRow.natKey DemographicsInput.natKey
        (DemographicsRepository.applyUpdate ts1) (DemographicsRepository.buildInsert ts1)
        demStorage demRows) b hb
    have hle := huD2 (DemographicsInput.natKey b)
    omega
  · intro b hb a ha hk
    exact upsertList_key_establish DemographicsRow.natKey DemographicsInput.natKey
      (DemographicsRepository.applyUpdate ts2) (DemographicsRepository.buildInsert ts2)
      (fun a => a.last_updated = ts2) (hupdD ts2) (hinsD ts2) demRows _ huD1
      (fun _ _ => rfl) (fun _ => rfl) b hb a ha hk
  · intro b hb
    have hpos := upsertList_key_present SpendingRow.natKey SpendingInput.natKey
      (SpendingRepository.applyUpdate ts2) (SpendingRepository.buildInsert ts2)
      (hupdS ts2) (hinsS ts2) spRows
      (upsertList SpendingRow.natKey SpendingInput.natKey
        (SpendingRepository.applyUpdate ts1) (SpendingRepository.buildInsert ts1)
        spStorage spRows) b hb
    have hle := huS2 (SpendingInput.natKey b)
    omega
  · intro b hb a ha hk
    exact upsertList_key_establish SpendingRow.natKey SpendingInput.natKey
      (SpendingRepository.applyUpdate ts2) (SpendingRepository.buildInsert ts2)
      (fun a => a.last_updated = ts2) (hupdS ts2) (hinsS ts2) spRows _ huS1
      (fun _ _ => rfl) (fun _ => rfl) b hb a ha hk

/-- C3 witness: the double upsert of one concrete row into the empty tables
leaves exactly one stored row for its key in each repository. -/
theorem upsert_many_idempotent_witness :
    UniqueKeys DemographicsRow.natKey ([] : List DemographicsRow) ∧
    UniqueKeys SpendingRow.natKey ([] : List SpendingRow) ∧
    countKey DemographicsRow.natKey demographicsSampleInput.natKey
      (DemographicsRepository.upsert_many
        (DemographicsRepository.upsert_many [] [demographicsSampleInput] "t1").1
        [demographicsSampleInput] "t2").1 = 1 ∧
    countKey SpendingRow.natKey spendingSampleInput.natKey
      (SpendingRepository.upsert_many
        (SpendingRepository.upsert_many [] [spendingSampleInput] "t1").1
        [spendingSampleInput] "t2").1 = 1 := by
  have h := upsert_many_idempotent [] [demographicsSampleInput] []
    [spendingSampleInput] "t1" "t2" (fun _ => Nat.zero_le 1) (fun _ => Nat.zero_le 1)
  exact ⟨fun _ => Nat.zero_le 1, fun _ => Nat.zero_le 1,
    h.1.2.2.2.1 demographicsSampleInput (List.mem_singleton.mpr rfl),
    h.2.2.2.2.1 spendingSampleInput (List.mem_singleton.mpr rfl)⟩

/-! ### Claim C7 -/

/-- C7 (confirmed): `upsert_many` never modifies the key fields or
`tenant_id` of an existing stored row (each original position keeps its
`geo_id`, `city`, `country`, `category` where applicable, and `tenant_id`),
and never changes the number of stored rows of a natural key that already
exists in the table.  Shown for the demographics and spending repositories. -/
theorem upsert_many_preserves_keys
    (demStorage : List DemographicsRow) (demRows : List DemographicsInput)
    (spStorage : List SpendingRow) (spRows : List SpendingInput) (ts : String) :
    ((∀ (i : Nat) (a : DemographicsRow), demStorage[i]? = some a →
        ∃ a2, (DemographicsRepository.upsert_many demStorage demRows ts).1[i]? = some a2 ∧
          a2.geo_id = a.geo_id ∧ a2.city = a.city ∧ a2.country = a.country ∧
          a2.tenant_id = a.tenant_id) ∧
      (∀ k, (∃ a ∈ demStorage, DemographicsRow.natKey a = k) →
        countKey DemographicsRow.natKey k
          (DemographicsRepository.upsert_many demStorage demRows ts).1 =
          countKey DemographicsRow.natKey k demStorage)) ∧
    ((∀ (i : Nat) (a : SpendingRow), spStorage[i]? = some a →
        ∃ a2, (SpendingRepository.upsert_many spStorage spRows ts).1[i]? = some a2 ∧
          a2.geo_id = a.geo_id ∧ a2.city = a.city ∧ a2.country = a.country ∧
          a2.category = a.category ∧ a2.tenant_id = a.tenant_id) ∧
      (∀ k, (∃ a ∈ spStorage, SpendingRow.natKey a = k) →
        countKey SpendingRow.natKey k
          (SpendingRepository.upsert_many spStorage spRows ts).1 =
          countKey SpendingRow.natKey k spStorage)) := by
  simp only [DemographicsRepository.upsert_many, SpendingRepository.upsert_many,
    upsertMany_fst]
  refine ⟨⟨?_, ?_⟩, ⟨?_, ?_⟩⟩
  · intro i a h
    rcases upsertList_get? DemographicsRow.natKey DemographicsInput.natKey
        (DemographicsRepository.applyUpdate ts) (DemographicsRepository.buildInsert ts)
        (fun a => (a.geo_id, a.city, a.country, a.tenant_id)) (fun _ _ => rfl)
        demRows demStorage i a h with ⟨a2, h2, hπ⟩
    rw [Prod.ext_iff, Prod.ext_iff, Prod.ext_iff] at hπ
    exact ⟨a2, h2, hπ.1, hπ.2.1, hπ.2.2.1, hπ.2.2.2⟩
  · intro k hex
    exact upsertList_countKey_of_mem DemographicsRow.natKey DemographicsInput.natKey
      (DemographicsRepository.applyUpdate ts) (DemographicsRepository.buildInsert ts)
      (fun _ _ => rfl) (fun _ => rfl) demRows demStorage k
      ((countKey_pos_iff DemographicsRow.natKey k demStorage).mpr hex)
  · intro i a h
    rcases upsertList_get? SpendingRow.natKey SpendingInput.natKey
        (SpendingRepository.applyUpdate ts) (SpendingRepository.buildInsert ts)
        (fun a => (a.geo_id, a.city, a.country, a.category, a.tenant_id))
        (fun _ _ => rfl) spRows spStorage i a h with ⟨a2, h2, hπ⟩
    rw [Prod.ext_iff, Prod.ext_iff, Prod.ext_iff, Prod.ext_iff] at hπ
    exact ⟨a2, h2, hπ.1, hπ.2.1, hπ.2.2.1, hπ.2.2.2.1, hπ.2.2.2.2⟩
  · intro k hex
    exact upsertList_countKey_of_mem SpendingRow.natKey SpendingInput.natKey
      (SpendingRepository.applyUpdate ts) (SpendingRepository.buildInsert ts)
      (fun _ _ => rfl) (fun _ => rfl) spRows spStorage k
      ((countKey_pos_iff SpendingRow.natKey k spStorage).mpr hex)

/-- C7 witness: upserting a concrete input over a stored row with the same
natural key but a different tenant keeps the stored row's key fields and
tenant and does not add a row for that key. -/
theorem upsert_many_preserves_keys_witness :
    (∃ a2, (DemographicsRepository.upsert_many [demographicsSampleRow]
        [demographicsSampleInput] "t9").1[0]? = some a2 ∧
      a2.geo_id = demographicsSampleRow.geo_id ∧
      a2.city = demographicsSampleRow.city ∧
      a2.country = demographicsSampleRow.country ∧
      a2.tenant_id = demographicsSampleRow.tenant_id) ∧
    countKey DemographicsRow.natKey demographicsSampleRow.natKey
      (DemographicsRepository.upsert_many [demographicsSampleRow]
        [demographicsSampleInput] "t9").1 =
      countKey DemographicsRow.natKey demographicsSampleRow.natKey
        [demographicsSampleRow] ∧
    (∃ a2, (SpendingRepository.upsert_many [spendingSampleRow]
        [spendingSampleInput] "t9").1[0]? = some a2 ∧
      a2.geo_id = spendingSampleRow.geo_id ∧
      a2.city = spendingSampleRow.city ∧
      a2.country = spendingSampleRow.country ∧
      a2.category = spendingSampleRow.category ∧
      a2.tenant_id = spendingSampleRow.tenant_id) := by
  have h := upsert_many_preserves_keys [demographicsSampleRow] [demographicsSampleInput]
    [spendingSampleRow] [spendingSampleInput] "t9"
  exact ⟨h.1.1 0 demographicsSampleRow rfl,
    h.1.2 demographicsSampleRow.natKey
      ⟨demographicsSampleRow, List.mem_singleton.mpr rfl, rfl⟩,
    h.2.1 0 spendingSampleRow rfl⟩

/-! ### Claim C4 -/

/-- C4 (confirmed): when any vector returned by the Embedding Client has a
length different from the configured embedding dimensionality, the rebuild
run raises the dimension-mismatch `ValueError` (appending only the FAILED
audit row), the vector repository's `upsert_many` is never invoked, and the
vector store is left unchanged. -/
theorem rebuild_dimension_guard
    (embed_texts : List Snapshot → List (List Int)) (embedding_dims : Nat)
    (s : Storage) (country : Option String) (c : String)
    (regions : Option (List String)) (options : OptionsMap)
    (tenant_id : Option String) (now : String)
    (hc : ¬c = "")
    (hbad : (embed_texts (RebuildEmbeddingsJob.run_documents s c country regions options)).any
      (fun vec => vec.length ≠ embedding_dims) = true) :
    RebuildEmbeddingsJob.run embed_texts embedding_dims s country (some c) regions
        options tenant_id now =
      ({ s with etl_logs := s.etl_logs ++
          [⟨"rebuild-embeddings", .rebuild country (some c) regions options, "FAILED", now⟩] },
        [.repoRead "demographics", .repoRead "spending", .repoRead "labour_stats",
          .repoRead "business_density",
          .embedCall (RebuildEmbeddingsJob.run_documents s c country regions options).length,
          .etlLogAdd ⟨"rebuild-embeddings", .rebuild country (some c) regions options,
            "FAILED", now⟩],
        .error (.valueError "Embedding dimensions mismatch with configured schema")) ∧
    (RebuildEmbeddingsJob.run embed_texts embedding_dims s country (some c) regions
        options tenant_id now).2.1.countP StorageOp.isVectorUpsert = 0 ∧
    (RebuildEmbeddingsJob.run embed_texts embedding_dims s country (some c) regions
        options tenant_id now).1.vector_insights = s.vector_insights := by
  simp only [RebuildEmbeddingsJob.run_documents, RebuildEmbeddingsJob.selected_geo_ids] at hbad
  have hrun : RebuildEmbeddingsJob.run embed_texts embedding_dims s country (some c)
      regions options tenant_id now =
      ({ s with etl_logs := s.etl_logs ++
          [⟨"rebuild-embeddings", .rebuild country (some c) regions options, "FAILED", now⟩] },
        [.repoRead "demographics", .repoRead "spending", .repoRead "labour_stats",
          .repoRead "business_density",
          .embedCall (RebuildEmbeddingsJob.run_documents s c country regions options).length,
          .etlLogAdd ⟨"rebuild-embeddings", .rebuild country (some c) regions options,
            "FAILED", now⟩],
        .error (.valueError "Embedding dimensions mismatch with configured schema")) := by
    simp only [RebuildEmbeddingsJob.run, RebuildEmbeddingsJob.run_documents,
      RebuildEmbeddingsJob.selected_geo_ids, if_neg hc, hbad, if_pos]
    simp [RebuildEmbeddingsJob.run_documents, RebuildEmbeddingsJob.selected_geo_ids]
  refine ⟨hrun, ?_, ?_⟩
  · rw [hrun]
    simp [List.countP_cons, StorageOp.isVectorUpsert]
  · rw [hrun]

/-- C4 witness: an embedding client that always returns one empty vector
trips the guard for dimensionality 3 on the empty storage. -/
theorem rebuild_dimension_guard_witness :
    ¬"Accra" = "" ∧
    ((fun _ => [([] : List Int)]) (RebuildEmbeddingsJob.run_documents Storage.empty
      "Accra" none none [])).any (fun vec => vec.length ≠ 3) = true ∧
    (RebuildEmbeddingsJob.run (fun _ => [([] : List Int)]) 3 Storage.empty none
      (some "Accra") none [] none "t0").2.1.countP StorageOp.isVectorUpsert = 0 := by
  refine ⟨by decide, by decide, ?_⟩
  exact (rebuild_dimension_guard (fun _ => [([] : List Int)]) 3 Storage.empty none
    "Accra" none [] none "t0" (by decide) (by decide)).2.1

/-! ### Claim C10 -/

/-- C10 (confirmed): a rebuild run with a missing or empty city raises the
`ValueError` before the `try` block: storage is returned entirely unchanged
(no vector upsert and, unlike other failures of this job, no FAILED audit
row) and the operation trace is empty (no repository read, no embedding
call, no write). -/
theorem rebuild_empty_city_guard
    (embed_texts : List Snapshot → List (List Int)) (embedding_dims : Nat)
    (s : Storage) (country : Option String) (regions : Option (List String))
    (options : OptionsMap) (tenant_id : Option String) (now : String)
    (city : Option String) (hc : city = none ∨ city = some "") :
    RebuildEmbeddingsJob.run embed_texts embedding_dims s country city regions
        options tenant_id now =
      (s, [], .error (.valueError "city is required for rebuild-embeddings")) := by
  rcases hc with rfl | rfl
  · rfl
  · simp [RebuildEmbeddingsJob.run]

/-- C10 witness: the guard at the concrete empty city. -/
theorem rebuild_empty_city_guard_witness :
    ((some "" : Option String) = none ∨ (some "" : Option String) = some "") ∧
    RebuildEmbeddingsJob.run (fun _ => []) 3 Storage.empty none (some "") none
        [] none "t0" =
      (Storage.empty, [], .error (.valueError "city is required for rebuild-embeddings")) :=
  ⟨Or.inr rfl,
    rebuild_empty_city_guard (fun _ => []) 3 Storage.empty none none [] none "t0"
      (some "") (Or.inr rfl)⟩

/-! ### Claim C5 -/

theorem rebuildGeoIdPool_mem (dem : List DemographicsRow) (sp : List SpendingRow)
    (la : List LabourStatsRow) (de : List BusinessDensityRow) (g : String) :
    g ∈ rebuildGeoIdPool dem sp la de ↔
      ((∃ r ∈ dem, r.geo_id = g) ∨ (∃ r ∈ sp, r.geo_id = g) ∨
        (∃ r ∈ la, r.geo_id = g) ∨ (∃ r ∈ de, r.geo_id = g)) := by
  simp [rebuildGeoIdPool, List.mem_dedup, List.mem_append, List.mem_map, or_assoc]

/-- C5 (amended): the selected `geo_id` list of a rebuild run contains
exactly the `geo_id`s occurring in the four repository result sets,
intersected with the regions filter when a *non-empty* one is supplied (an
empty or absent regions list filters nothing); the list is strictly sorted
in lexicographic order (hence duplicate-free and deterministic), and the
document list is built over it in that order.  Determinism across runs is
immediate: the selection and documents are functions of the repository
contents and inputs alone. -/
theorem rebuild_selected_geo_ids_spec :
    (∀ (dem : List DemographicsRow) (sp : List SpendingRow)
        (la : List LabourStatsRow) (de : List BusinessDensityRow)
        (regions : Option (List String)),
      (∀ g, g ∈ rebuildOrderedGeoIds (rebuildGeoIdPool dem sp la de) regions ↔
        (((∃ r ∈ dem, r.geo_id = g) ∨ (∃ r ∈ sp, r.geo_id = g) ∨
            (∃ r ∈ la, r.geo_id = g) ∨ (∃ r ∈ de, r.geo_id = g)) ∧
          (match regions with
            | some rs => rs = [] ∨ g ∈ rs
            | none => True))) ∧
      List.Sorted (fun a b => a < b)
        (rebuildOrderedGeoIds (rebuildGeoIdPool dem sp la de) regions)) ∧
    (∀ (s : Storage) (c : String) (country : Option String)
        (regions : Option (List String)) (options : OptionsMap),
      RebuildEmbeddingsJob.run_documents s c country regions options =
        (RebuildEmbeddingsJob.selected_geo_ids s c country regions).map (fun g =>
          RebuildEmbeddingsJob.build_region_document g c country
            (DemographicsRepository.get_for_regions s.demographics c country)
            (SpendingRepository.get_for_regions s.spending c country)
            (LabourStatsRepository.get_for_regions s.labour_stats c country)
            (BusinessDensityRepository.list_by_city_and_type s.business_density c country none)
            options)) := by
  have key : ∀ pool2 : List String, pool2.Nodup →
      List.Sorted (fun a b : String => a < b)
        (List.insertionSort (fun a b : String => a ≤ b) pool2) := by
    intro pool2 hnd
    exact List.Sorted.lt_of_le (List.sorted_insertionSort _ pool2)
      (((List.perm_insertionSort (fun a b : String => a ≤ b) pool2).nodup_iff).mpr hnd)
  refine ⟨fun dem sp la de regions => ⟨?_, ?_⟩, fun s c country regions options => rfl⟩
  · intro g
    match regions with
    | none =>
      simp only [rebuildOrderedGeoIds, List.mem_insertionSort]
      rw [rebuildGeoIdPool_mem]
      simp
    | some rs =>
      by_cases hrs : rs = []
      · subst hrs
        simp only [rebuildOrderedGeoIds, eq_self_iff_true, if_true, List.mem_insertionSort]
        rw [rebuildGeoIdPool_mem]
        simp
      · simp only [rebuildOrderedGeoIds, if_neg hrs, List.mem_insertionSort,
          List.mem_filter, decide_eq_true_eq]
        rw [rebuildGeoIdPool_mem]
        constructor
        · rintro ⟨h1, h2⟩
          exact ⟨h1, Or.inr h2⟩
        · rintro ⟨h1, rfl | h2⟩
          · exact absurd rfl hrs
          · exact ⟨h1, h2⟩
  · match regions with
    | none =>
      simpa only [rebuildOrderedGeoIds] using key _ (List.nodup_dedup _)
    | some rs =>
      by_cases hrs : rs = []
      · subst hrs
        simpa only [rebuildOrderedGeoIds, eq_self_iff_true, if_true] using
          key _ (List.nodup_dedup _)
      · simpa only [rebuildOrderedGeoIds, if_neg hrs] using
          key _ ((List.nodup_dedup _).filter _)

/-- C5 counterexample: with one stored demographics row for the city and an
*empty* supplied regions list, the code selects the row's region (the falsy
empty list disables the filter), while the claim's intersection semantics
would select nothing. -/
theorem rebuild_region_selection_cex :
    RebuildEmbeddingsJob.selected_geo_ids
      { Storage.empty with demographics := [demographicsSampleRow] }
      "Accra" none (some []) = ["accra-central"] ∧
    claimedOrderedGeoIds
      (rebuildGeoIdPool
        (DemographicsRepository.get_for_regions [demographicsSampleRow] "Accra" none)
        (SpendingRepository.get_for_regions [] "Accra" none)
        (LabourStatsRepository.get_for_regions [] "Accra" none)
        (BusinessDensityRepository.list_by_city_and_type [] "Accra" none none))
      (some []) = [] ∧
    (["accra-central"] : List String) ≠ [] := by
  refine ⟨by decide, by decide, by decide⟩

/-! ### Claim C6 -/

/-- C6 counterexample: the embedding worker's normalization does not collapse
hyphens to underscores — it only lower-cases and trims — so it differs from
the normalization the claim asserts for both workers. -/
theorem worker_normalize_cex :
    EmbeddingWorker.normalize_job_name "Rebuild-Embeddings" = "rebuild-embeddings" ∧
    claimedWorkerNormalize "Rebuild-Embeddings" = "rebuild_embeddings" ∧
    EmbeddingWorker.normalize_job_name "Rebuild-Embeddings" ≠
      claimedWorkerNormalize "Rebuild-Embeddings" := by
  refine ⟨by decide, by decide, by decide⟩

/-- C6 (amended): the ingestion worker normalizes identifiers by
lower-casing, collapsing hyphens to underscores and trimming; the embedding
worker normalizes by lower-casing and trimming only (no hyphen collapsing).
For both workers, when the normalized identifier matches no registered
handler, `consume` raises the unsupported-job `ValueError` whose message
carries the original (unnormalized) identifier, selects no handler, and the
error propagates to the caller. -/
theorem worker_dispatch_unsupported :
    (∀ sid, IngestionWorker.normalize_dataset_name sid = claimedWorkerNormalize sid) ∧
    (∀ sid, EmbeddingWorker.normalize_job_name sid = pyStrip (pyLower sid)) ∧
    (∀ (η : Type) (handlers : List (String × η)) (payload : IngestPayload),
      dictGet handlers (IngestionWorker.normalize_dataset_name
        (IngestionMessage.from_payload payload).dataset) = none →
      IngestionWorker.consume handlers payload =
        .error ("Unsupported ingestion dataset: " ++
          (IngestionMessage.from_payload payload).dataset)) ∧
    (∀ (η : Type) (handlers : List (String × η)) (payload : EmbedPayload),
      dictGet handlers (EmbeddingWorker.normalize_job_name
        (EmbeddingMessage.from_payload payload).job_name) = none →
      EmbeddingWorker.consume handlers payload =
        .error ("Unsupported embedding job: " ++
          (EmbeddingMessage.from_payload payload).job_name)) := by
  refine ⟨fun _ => rfl, fun _ => rfl, ?_, ?_⟩
  · intro η handlers payload h
    simp [IngestionWorker.consume, h]
  · intro η handlers payload h
    simp [EmbeddingWorker.consume, h]

/-- C6 witness: dispatching an unregistered dataset to an ingestion worker
with one handler, and the underscore spelling of `rebuild-embeddings` to the
default embedding worker (whose only key is the hyphenated spelling), both
produce the unsupported-job error carrying the original identifier. -/
theorem worker_dispatch_unsupported_witness :
    dictGet (IngestionWorker.build [("demographics", 0)])
      (IngestionWorker.normalize_dataset_name
        (IngestionMessage.from_payload
          ⟨JStr.str "Mystery-Set", JStr.missing, none, none, none⟩).dataset) = none ∧
    IngestionWorker.consume (IngestionWorker.build [("demographics", 0)])
      ⟨JStr.str "Mystery-Set", JStr.missing, none, none, none⟩ =
      .error ("Unsupported ingestion dataset: " ++ "Mystery-Set") ∧
    EmbeddingWorker.consume (EmbeddingWorker.build [("rebuild-embeddings", 0)])
      ⟨some "rebuild_embeddings", none, none, none, none⟩ =
      .error ("Unsupported embedding job: " ++ "rebuild_embeddings") := by
  refine ⟨by decide, ?_, ?_⟩
  · exact worker_dispatch_unsupported.2.2.1 Nat (IngestionWorker.build [("demographics", 0)])
      ⟨JStr.str "Mystery-Set", JStr.missing, none, none, none⟩ (by decide)
  · exact worker_dispatch_unsupported.2.2.2 Nat (EmbeddingWorker.build [("rebuild-embeddings", 0)])
      ⟨some "rebuild_embeddings", none, none, none, none⟩ (by decide)

/-! ### Claim C8 -/

/-- C8 (confirmed): `IngestionMessage.from_payload` resolves the job
identifier from the `dataset` field when it is a string that is non-empty
after stripping whitespace, and otherwise falls back to the `job_name`
field (a string `job_name` always becomes the identifier, the empty string
included); `country` and `city` pass through unchanged; a missing or null
`options` field defaults to the empty map, and a present one passes through. -/
theorem ingestion_message_decode (payload : IngestPayload) :
    ((∀ d, payload.dataset = JStr.str d → ¬pyStrip d = "" →
        (IngestionMessage.from_payload payload).dataset = d) ∧
      (∀ j, (payload.dataset = JStr.missing ∨ payload.dataset = JStr.nonstr ∨
          (∃ d, payload.dataset = JStr.str d ∧ pyStrip d = "")) →
        payload.job_name = JStr.str j →
        (IngestionMessage.from_payload payload).dataset = j)) ∧
    (IngestionMessage.from_payload payload).country = payload.country ∧
    (IngestionMessage.from_payload payload).city = payload.city ∧
    (payload.options = none → (IngestionMessage.from_payload payload).options = []) ∧
    (∀ m, payload.options = some m → (IngestionMessage.from_payload payload).options = m) := by
  obtain ⟨pd, pj, pc, pcity, popt⟩ := payload
  refine ⟨⟨?_, ?_⟩, rfl, rfl, ?_, ?_⟩
  · intro d hd hne
    cases hd
    simp [IngestionMessage.from_payload, hne]
  · intro j hds hj
    cases hj
    have hgoal : (if j = "" then "" else j) = j := by
      by_cases hj0 : j = "" <;> simp [hj0]
    rcases hds with hd | hd | ⟨d, hd, hde⟩
    · cases hd
      simpa [IngestionMessage.from_payload] using hgoal
    · cases hd
      simpa [IngestionMessage.from_payload] using hgoal
    · cases hd
      simpa [IngestionMessage.from_payload, hde] using hgoal
  · intro h
    cases h
    rfl
  · intro m h
    cases h
    rfl

/-- C8 witness: a payload with both fields uses `dataset` and defaults the
missing options, a payload without `dataset` falls back to `job_name` and
passes its options map through. -/
theorem ingestion_message_decode_witness :
    (IngestionMessage.from_payload
      ⟨JStr.str "demographics", JStr.str "census-demographics-refresh",
        some "GH", some "Accra", none⟩).dataset = "demographics" ∧
    (IngestionMessage.from_payload
      ⟨JStr.str "demographics", JStr.str "census-demographics-refresh",
        some "GH", some "Accra", none⟩).options = [] ∧
    (IngestionMessage.from_payload
      ⟨JStr.missing, JStr.str "labour-stats-refresh", none, none,
        some [("mode", "full")]⟩).dataset = "labour-stats-refresh" ∧
    (IngestionMessage.from_payload
      ⟨JStr.missing, JStr.str "labour-stats-refresh", none, none,
        some [("mode", "full")]⟩).options = [("mode", "full")] := by
  refine ⟨?_, ?_, ?_, ?_⟩
  · exact (ingestion_message_decode
      ⟨JStr.str "demographics", JStr.str "census-demographics-refresh",
        some "GH", some "Accra", none⟩).1.1 "demographics" rfl (by decide)
  · exact (ingestion_message_decode
      ⟨JStr.str "demographics", JStr.str "census-demographics-refresh",
        some "GH", some "Accra", none⟩).2.2.2.1 rfl
  · exact (ingestion_message_decode
      ⟨JStr.missing, JStr.str "labour-stats-refresh", none, none,
        some [("mode", "full")]⟩).1.2 "labour-stats-refresh" (Or.inl rfl) rfl
  · exact (ingestion_message_decode
      ⟨JStr.missing, JStr.str "labour-stats-refresh", none, none,
        some [("mode", "full")]⟩).2.2.2.2 [("mode", "full")] rfl

/-! ### Claim C9 -/

theorem extract_coordinates_loop_eq (max_samples : Nat) :
    ∀ (elements : List OsmElement) (acc : List CoordSample),
      acc.length < max_samples →
      OverpassBusinessDensitySourceClient.extract_coordinates_loop max_samples
          elements acc =
        acc ++ (elements.filterMap OverpassBusinessDensitySourceClient.sample_of).take
          (max_samples - acc.length) := by
  intro elements
  induction elements with
  | nil =>
    intro acc h
    simp [OverpassBusinessDensitySourceClient.extract_coordinates_loop]
  | cons e rest ih =>
    intro acc h
    cases hres : OverpassBusinessDensitySourceClient.resolve_point e with
    | none =>
      have hsamp : OverpassBusinessDensitySourceClient.sample_of e = none := by
        simp [OverpassBusinessDensitySourceClient.sample_of, hres]
      simp only [OverpassBusinessDensitySourceClient.extract_coordinates_loop, hres,
        List.filterMap_cons, hsamp]
      exact ih acc h
    | some p =>
      have hsamp : OverpassBusinessDensitySourceClient.sample_of e =
          some ⟨e.id, p.1, p.2, e.osm_type⟩ := by
        simp [OverpassBusinessDensitySourceClient.sample_of, hres]
      have hlen : (acc ++ [(⟨e.id, p.1, p.2, e.osm_type⟩ : CoordSample)]).length =
          acc.length + 1 := by
        simp
      simp only [OverpassBusinessDensitySourceClient.extract_coordinates_loop, hres,
        List.filterMap_cons, hsamp]
      by_cases hfull : max_samples ≤
          (acc ++ [(⟨e.id, p.1, p.2, e.osm_type⟩ : CoordSample)]).length
      · rw [if_pos hfull]
        have hms : max_samples - acc.length = 1 := by
          rw [hlen] at hfull
          omega
        rw [hms]
        simp
      · rw [if_neg hfull]
        have hlt : (acc ++ [(⟨e.id, p.1, p.2, e.osm_type⟩ : CoordSample)]).length <
            max_samples := by omega
        rw [ih _ hlt, hlen]
        have hms : max_samples - (acc.length + 1) = max_samples - acc.length - 1 := by
          omega
        have hsucc : max_samples - acc.length = (max_samples - acc.length - 1) + 1 := by
          rw [hlen] at hfull
          omega
        rw [hms, hsucc, List.take_succ_cons, List.append_assoc]
        rfl

theorem extract_coordinates_take (elements : List OsmElement) (max_samples : Nat)
    (h : 1 ≤ max_samples) :
    OverpassBusinessDensitySourceClient.extract_coordinates elements max_samples =
      (elements.filterMap OverpassBusinessDensitySourceClient.sample_of).take
        max_samples := by
  have h2 := extract_coordinates_loop_eq max_samples elements [] (by simpa using h)
  simpa [OverpassBusinessDensitySourceClient.extract_coordinates] using h2

/-- C9 (amended): per queried business type the produced row's `count`
equals the number of elements in that query's response, and the coordinate
samples are the first (up to) N response elements *that have resolvable
coordinates* (own lat/lon or via `center`), projected to
`{id, lat, lon, type}`, in response order — not the first N elements
outright; an empty sample list is stored as null. -/
theorem fetch_business_density_rows
    (responses : String → OverpassResponse) (specs : List (String × TagSpec))
    (country : Option String) (c : String) (st : OsmSettings)
    (hc : ¬c = "") (hmax : 1 ≤ st.osm_max_coordinate_samples)
    (hok : ∀ p ∈ specs, (responses p.1).ok = true) :
    (∀ elements, OverpassBusinessDensitySourceClient.extract_coordinates elements
        st.osm_max_coordinate_samples =
      (elements.filterMap OverpassBusinessDensitySourceClient.sample_of).take
        st.osm_max_coordinate_samples) ∧
    OverpassBusinessDensitySourceClient.fetch_business_density responses specs
        country (some c) st =
      .ok (specs.map (fun p =>
        ⟨OverpassBusinessDensitySourceClient.build_city_geo_id c st,
          (match country with
            | some co => if co = "" then st.osm_default_country else co
            | none => st.osm_default_country),
          c, p.1, Int.ofNat (responses p.1).elements.length, none,
          if ((responses p.1).elements.filterMap
              OverpassBusinessDensitySourceClient.sample_of).take
              st.osm_max_coordinate_samples = [] then none
          else some (((responses p.1).elements.filterMap
              OverpassBusinessDensitySourceClient.sample_of).take
              st.osm_max_coordinate_samples)⟩)) := by
  refine ⟨fun elements => extract_coordinates_take elements _ hmax, ?_⟩
  have hloop : ∀ (sp : List (String × TagSpec)) (rows : List BusinessDensityInput),
      (∀ p ∈ sp, (responses p.1).ok = true) →
      OverpassBusinessDensitySourceClient.fetch_loop responses st
          (OverpassBusinessDensitySourceClient.build_city_geo_id c st)
          (match country with
            | some co => if co = "" then st.osm_default_country else co
            | none => st.osm_default_country) c sp rows =
        .ok (rows ++ sp.map (fun p =>
          ⟨OverpassBusinessDensitySourceClient.build_city_geo_id c st,
            (match country with
              | some co => if co = "" then st.osm_default_country else co
              | none => st.osm_default_country),
            c, p.1, Int.ofNat (responses p.1).elements.length, none,
            if ((responses p.1).elements.filterMap
                OverpassBusinessDensitySourceClient.sample_of).take
                st.osm_max_coordinate_samples = [] then none
            else some (((responses p.1).elements.filterMap
                OverpassBusinessDensitySourceClient.sample_of).take
                st.osm_max_coordinate_samples)⟩)) := by
    intro sp
    induction sp with
    | nil =>
      intro rows _
      simp [OverpassBusinessDensitySourceClient.fetch_loop]
    | cons p rest ih =>
      intro rows hok2
      obtain ⟨bt, spec⟩ := p
      have hokp : (responses bt).ok = true := hok2 (bt, spec) (List.mem_cons_self _ _)
      have hnot : ¬(responses bt).ok = false := by simp [hokp]
      simp only [OverpassBusinessDensitySourceClient.fetch_loop, if_neg hnot,
        extract_coordinates_take (responses bt).elements _ hmax]
      rw [ih _ (fun q hq => hok2 q (List.mem_cons_of_mem _ hq))]
      simp [List.append_assoc]
  simp only [OverpassBusinessDensitySourceClient.fetch_business_density, if_neg hc]
  simpa using hloop specs [] hok

/-- C9 counterexample: with a cap of 1 and a response whose first element has
no resolvable coordinates, the extracted sample comes from the *second*
element — the samples are not the first N elements of the response. -/
theorem extract_coordinates_cex :
    OverpassBusinessDensitySourceClient.extract_coordinates osmSampleElements 1 =
      [⟨some 2, 5, 6, some "node"⟩] ∧
    (osmSampleElements.take 1).map (fun e => e.id) = [some 1] ∧
    (OverpassBusinessDensitySourceClient.extract_coordinates osmSampleElements 1).map
      (fun cs => cs.id) ≠ (osmSampleElements.take 1).map (fun e => e.id) := by
  refine ⟨by decide, by decide, by decide⟩

/-- C9 witness: one concrete query (cap 1, first element without
coordinates) produces the row with `count = 2` and the single sample taken
from the second element. -/
theorem fetch_business_density_rows_witness :
    ¬"Accra" = "" ∧ 1 ≤ osmSampleSettings.osm_max_coordinate_samples ∧
    OverpassBusinessDensitySourceClient.fetch_business_density
      (fun _ => ⟨true, osmSampleElements⟩) [("cafes", ⟨"amenity", "cafe"⟩)] none
      (some "Accra") osmSampleSettings =
      .ok [⟨"accra-citywide", "GH", "Accra", "cafes", 2, none,
        some [⟨some 2, 5, 6, some "node"⟩]⟩] := by
  refine ⟨by decide, by decide, ?_⟩
  have h := (fetch_business_density_rows (fun _ => ⟨true, osmSampleElements⟩)
    [("cafes", ⟨"amenity", "cafe"⟩)] none "Accra" osmSampleSettings (by decide)
    (by decide) (by intro p _; rfl)).2
  rw [h]
  rfl

end LocalBizIntel
